import Mathlib

/-
Verification development for the Sentinel loss-prevention engine.

The Python modules under src/ are shallowly embedded:
  * Python dicts of JSON data are association lists of `JVal`;
  * Python floats are modelled as exact rationals (`ℚ`);
  * `datetime` values are `PyDateTime`: a rational count of seconds together
    with a timezone-awareness flag.  Comparing or subtracting a naive and an
    aware datetime raises `TypeError` in Python; operations that can do so
    return `Except PyErr _`.
  * Stateful modules (module-level dicts in Python) become explicit state
    records threaded through the detector functions.
Presentation-only artefacts (ISO string rendering of timestamps, f-string
alert messages, uuid identifiers) are not inspected by any claim and are
omitted or abstracted where noted next to the definition concerned.
-/

set_option maxHeartbeats 1000000

namespace Sentinel

/-- Python exception kinds reachable in the embedded code. -/
inductive PyErr where
  | typeError
  | attributeError
  | valueError
  | overflowError
deriving DecidableEq

/-- JSON-like Python values.  Event payloads are decoded from JSON, whose
numbers are finite, so `jfloat` carries an exact rational; the non-finite
float constructors `jinf`/`jninf`/`jnan` arise only in detector-built
evidence dicts (Python `float('inf')` etc. produced by coercing strings),
never in payloads, so the payload-side coercions need not accept them. -/
inductive JVal where
  | jnull
  | jbool (b : Bool)
  | jint (n : ℤ)
  | jfloat (q : ℚ)
  | jinf
  | jninf
  | jnan
  | jstr (s : String)
  | jlist (xs : List JVal)
  | jdict (entries : List (String × JVal))

/-- Python truthiness of a JSON-like value (`bool(inf)`, `bool(nan)` are
`True`). -/
def jTruthy : JVal → Bool
  | .jnull => false
  | .jbool b => b
  | .jint n => n != 0
  | .jfloat q => q != 0
  | .jinf => true
  | .jninf => true
  | .jnan => true
  | .jstr s => s != ""
  | .jlist xs => !xs.isEmpty
  | .jdict es => !es.isEmpty

/-- First-match lookup in an association list (Python `dict.get`). -/
def aget {κ α : Type} [DecidableEq κ] (m : List (κ × α)) (k : κ) : Option α :=
  (m.find? (fun p => decide (p.1 = k))).map Prod.snd

/-- Store a binding, replacing any previous one (Python `dict[k] = v`).
Iteration order of the Python dicts modelled this way is never observable
to the claims, so the updated binding is kept at the front. -/
def aset {κ α : Type} [DecidableEq κ] (m : List (κ × α)) (k : κ) (v : α) :
    List (κ × α) :=
  (k, v) :: m.filter (fun p => decide (p.1 ≠ k))

/-- Remove a binding (Python `dict.pop(k, None)`). -/
def adel {κ α : Type} [DecidableEq κ] (m : List (κ × α)) (k : κ) : List (κ × α) :=
  m.filter (fun p => decide (p.1 ≠ k))

@[simp] theorem aget_nil {κ α : Type} [DecidableEq κ] (k : κ) :
    aget ([] : List (κ × α)) k = none := rfl

@[simp] theorem aget_cons {κ α : Type} [DecidableEq κ] (p : κ × α)
    (m : List (κ × α)) (k : κ) :
    aget (p :: m) k = if p.1 = k then some p.2 else aget m k := by
  by_cases h : p.1 = k <;> simp [aget, List.find?, h]

@[simp] theorem aget_aset_self {κ α : Type} [DecidableEq κ] (m : List (κ × α))
    (k : κ) (v : α) : aget (aset m k v) k = some v := by
  simp [aset]

theorem aget_aset_ne {κ α : Type} [DecidableEq κ] (m : List (κ × α))
    (k k' : κ) (v : α) (h : k ≠ k') : aget (aset m k v) k' = aget m k' := by
  have hfil : ∀ l : List (κ × α),
      aget (l.filter (fun p => decide (p.1 ≠ k))) k' = aget l k' := by
    intro l
    induction l with
    | nil => rfl
    | cons p rest ih =>
        rw [List.filter_cons]
        by_cases hpne : (decide (p.1 ≠ k)) = true
        · rw [if_pos hpne, aget_cons, aget_cons]
          by_cases hpk : p.1 = k'
          · rw [if_pos hpk, if_pos hpk]
          · rw [if_neg hpk, if_neg hpk, ih]
        · rw [if_neg hpne, ih, aget_cons]
          have hpq : p.1 = k := by
            simpa using hpne
          have hpk : ¬ (p.1 = k') := fun hc => h (hpq.symm.trans hc)
          rw [if_neg hpk]
  simp only [aset, aget_cons]
  rw [if_neg h]
  exact hfil m

/-- Lookup of a JSON field (Python `payload.get(key)`). -/
def jget (m : List (String × JVal)) (k : String) : Option JVal := aget m k

end Sentinel

namespace Sentinel

/-- Parse an unsigned decimal integer; `none` when a non-digit occurs. -/
def digitsVal : List Char → Option ℕ
  | [] => some 0
  | c :: cs =>
      if c.isDigit then
        match digitsVal cs with
        | some v => some (v + (c.toNat - 48) * 10 ^ cs.length)
        | none => none
      else none

/-- A Python float: a finite value (kept as an exact rational, the
convention of this development), one of the two infinities, or NaN.
Non-finite values arise from coercing strings such as `"inf"` or `"1e999"`
(`float()` overflows to infinity); JSON payload numbers are always finite. -/
inductive PyFloat where
  | fin (q : ℚ)
  | inf
  | ninf
  | nan
deriving DecidableEq

namespace PyFloat

/-- The IEEE-754 double overflow boundary: a decimal literal whose exact
magnitude is at least `2^1024 − 2^970` (the rounding midpoint above the
largest finite double) converts to infinity under `float()`. -/
def ovfl : ℚ := 2 ^ 1024 - 2 ^ 970

/-- Python float addition (as met by `sum`): NaN propagates and opposite
infinities give NaN. -/
def add : PyFloat → PyFloat → PyFloat
  | nan, _ => nan
  | _, nan => nan
  | inf, ninf => nan
  | ninf, inf => nan
  | inf, _ => inf
  | _, inf => inf
  | ninf, _ => ninf
  | _, ninf => ninf
  | fin a, fin b => fin (a + b)

/-- `x − c` for finite `c`. -/
def subQ : PyFloat → ℚ → PyFloat
  | fin a, c => fin (a - c)
  | inf, _ => inf
  | ninf, _ => ninf
  | nan, _ => nan

/-- `c + x` for finite `c`. -/
def addQ (c : ℚ) : PyFloat → PyFloat
  | fin a => fin (c + a)
  | inf => inf
  | ninf => ninf
  | nan => nan

/-- `abs x`. -/
def absF : PyFloat → PyFloat
  | fin a => fin |a|
  | nan => nan
  | _ => inf

@[simp] theorem subQ_fin (a c : ℚ) : subQ (fin a) c = fin (a - c) := rfl

@[simp] theorem addQ_fin (c a : ℚ) : addQ c (fin a) = fin (c + a) := rfl

@[simp] theorem absF_fin (a : ℚ) : absF (fin a) = fin |a| := rfl

/-- `x / c` for a nonzero finite `c` (every use is guarded against zero). -/
def divQ : PyFloat → ℚ → PyFloat
  | fin a, c => fin (a / c)
  | inf, c => if 0 < c then inf else ninf
  | ninf, c => if 0 < c then ninf else inf
  | nan, _ => nan

/-- `x < c` for finite `c` (`nan < c` is `False` in Python). -/
def ltQ : PyFloat → ℚ → Bool
  | fin a, c => decide (a < c)
  | inf, _ => false
  | ninf, _ => true
  | nan, _ => false

/-- `x ≤ c` for finite `c` (`nan ≤ c` is `False` in Python). -/
def leQ : PyFloat → ℚ → Bool
  | fin a, c => decide (a ≤ c)
  | inf, _ => false
  | ninf, _ => true
  | nan, _ => false

/-- Full `x < y` (`False` whenever NaN is involved). -/
def lt : PyFloat → PyFloat → Bool
  | nan, _ => false
  | _, nan => false
  | fin a, fin b => decide (a < b)
  | fin _, inf => true
  | fin _, ninf => false
  | inf, _ => false
  | ninf, ninf => false
  | ninf, _ => true

/-- Python `min(a, b)`: returns `b` exactly when `b < a`. -/
def minF (a b : PyFloat) : PyFloat := if lt b a then b else a

@[simp] theorem leQ_fin (a c : ℚ) : leQ (fin a) c = decide (a ≤ c) := rfl

@[simp] theorem ltQ_fin (a c : ℚ) : ltQ (fin a) c = decide (a < c) := rfl

@[simp] theorem divQ_fin (a c : ℚ) : divQ (fin a) c = fin (a / c) := rfl

@[simp] theorem minF_fin (a b : ℚ) : minF (fin a) (fin b) = fin (min a b) := by
  by_cases h : b < a
  · simp [minF, lt, h, min_eq_right (le_of_lt h)]
  · simp [minF, lt, h, min_eq_left (not_lt.mp h)]

end PyFloat

/-- The exponent part of a float literal: optional sign and digits. -/
def parseExpChars : List Char → Option ℤ
  | [] => none
  | '+' :: ds =>
      if ds ≠ [] ∧ ds.all Char.isDigit then (digitsVal ds).map (fun n => (n : ℤ))
      else none
  | '-' :: ds =>
      if ds ≠ [] ∧ ds.all Char.isDigit then (digitsVal ds).map (fun n => -(n : ℤ))
      else none
  | ds =>
      if ds.all Char.isDigit then (digitsVal ds).map (fun n => (n : ℤ))
      else none

/-- Model of Python `float(s)`: optional sign; the keywords
`inf`/`infinity`/`nan` (case-insensitive); or a decimal literal with an
optional fractional part and an optional decimal exponent.  A finite
literal is kept as an exact rational (the convention of this development)
except that magnitudes at or beyond the IEEE-754 overflow boundary convert
to infinity, exactly as `float("1e999")` does.  Underscore separators and
hex floats are not modelled; no code path in the repository feeds them. -/
def parseFloatStr (s : String) : Option PyFloat :=
  let t := s.trim.toList
  let (neg, body) :=
    match t with
    | '-' :: rest => (true, rest)
    | '+' :: rest => (false, rest)
    | _ => (false, t)
  let lower := body.map Char.toLower
  if lower = "inf".toList ∨ lower = "infinity".toList then
    some (if neg then .ninf else .inf)
  else if lower = "nan".toList then some .nan
  else
    let intPart := body.takeWhile Char.isDigit
    let rest1 := body.dropWhile Char.isDigit
    let (mant, rest2) : Option ℚ × List Char :=
      match rest1 with
      | '.' :: tail =>
          let frac := tail.takeWhile Char.isDigit
          let rest := tail.dropWhile Char.isDigit
          (if intPart.isEmpty ∧ frac.isEmpty then none
           else
             match digitsVal intPart, digitsVal frac with
             | some i, some f => some ((i : ℚ) + (f : ℚ) / 10 ^ frac.length)
             | _, _ => none,
           rest)
      | _ =>
          (if intPart.isEmpty then none
           else (digitsVal intPart).map (fun v => (v : ℚ)),
           rest1)
    match mant with
    | none => none
    | some m =>
        let expv : Option ℤ :=
          match rest2 with
          | [] => some 0
          | 'e' :: etail => parseExpChars etail
          | 'E' :: etail => parseExpChars etail
          | _ => none
        match expv with
        | none => none
        | some e =>
            let v : ℚ := m * (10 : ℚ) ^ e
            if PyFloat.ovfl ≤ v then some (if neg then .ninf else .inf)
            else some (.fin (if neg then -v else v))

/-- Model of Python `int(s)`: optional sign and digits only. -/
def parseIntStr (s : String) : Option ℤ :=
  let t := s.trim.toList
  let (sign, body) :=
    match t with
    | '-' :: rest => ((-1 : ℤ), rest)
    | '+' :: rest => ((1 : ℤ), rest)
    | _ => ((1 : ℤ), t)
  if body.isEmpty then none
  else if body.all Char.isDigit then (digitsVal body).map (fun v => sign * v)
  else none

/-- Python `int()` truncates a float toward zero. -/
def pyTrunc (q : ℚ) : ℤ := if 0 ≤ q then ⌊q⌋ else ⌈q⌉

/-- `_coerce_float` (`detection/queue_health.py` and
`detection/weight_discrepancy.py`): numbers (including bools, which are
ints in Python) coerce, strings parse via `float()` — possibly to a
non-finite value, on which the callers proceed — and everything else
yields `None`. -/
def pyCoerceFloat : JVal → Option PyFloat
  | .jbool b => some (.fin (if b then 1 else 0))
  | .jint n => some (.fin n)
  | .jfloat q => some (.fin q)
  | .jstr s => parseFloatStr s
  | _ => none

/-- `_coerce_int` from `detection/queue_health.py`: ints pass through,
floats truncate, strings go through `int(float(s))` with only `ValueError`
caught — a string float that overflows to infinity makes `int(inf)` raise
an uncaught `OverflowError`, while `int(nan)` raises `ValueError`, which
is caught.  Everything else yields `None`. -/
def pyCoerceInt : JVal → Except PyErr (Option ℤ)
  | .jbool b => .ok (some (if b then 1 else 0))
  | .jint n => .ok (some n)
  | .jfloat q => .ok (some (pyTrunc q))
  | .jstr s =>
      match parseFloatStr s with
      | some (.fin q) => .ok (some (pyTrunc q))
      | some .inf => .error .overflowError
      | some .ninf => .error .overflowError
      | some .nan => .ok none
      | none => .ok none
  | _ => .ok none

/-- Bare Python `float(x)` as used by the queue-metrics service, which
stores the result into finite snapshot fields: a string parsing to a
non-finite float lies outside the modelled snapshot domain and is mapped
to `ValueError`; no claim feeds one. -/
def pyFloatE : JVal → Except PyErr ℚ
  | .jbool b => .ok (if b then 1 else 0)
  | .jint n => .ok n
  | .jfloat q => .ok q
  | .jstr s => match parseFloatStr s with
      | some (.fin q) => .ok q
      | _ => .error .valueError
  | _ => .error .typeError

/-- Bare Python `int(x)`: bools and ints pass, floats truncate, strings must
be integer literals, everything else raises. -/
def pyIntE : JVal → Except PyErr ℤ
  | .jbool b => .ok (if b then 1 else 0)
  | .jint n => .ok n
  | .jfloat q => .ok (pyTrunc q)
  | .jstr s => match parseIntStr s with
      | some n => .ok n
      | none => .error .valueError
  | _ => .error .valueError

/-- Python `str(x)`.  Exact float/list/dict formatting is presentation-only
and never inspected by a claim; those shapes map to a placeholder. -/
def pyStr : JVal → String
  | .jnull => "None"
  | .jinf => "inf"
  | .jninf => "-inf"
  | .jnan => "nan"
  | .jbool b => if b then "True" else "False"
  | .jint n => toString n
  | .jstr s => s
  | .jfloat _ => "<float>"
  | .jlist _ => "<list>"
  | .jdict _ => "<dict>"

/-- Banker's rounding to an integer, the rounding mode of Python `round`. -/
def pyRoundInt (x : ℚ) : ℤ :=
  let f := ⌊x⌋
  let r := x - f
  if r < 1/2 then f
  else if 1/2 < r then f + 1
  else if f % 2 = 0 then f else f + 1

/-- Python `round(x, 1)`. -/
def round1 (x : ℚ) : ℚ := (pyRoundInt (x * 10) : ℚ) / 10

/-- Python `round(x, 2)`. -/
def round2 (x : ℚ) : ℚ := (pyRoundInt (x * 100) : ℚ) / 100

/-- Python `round(x, 3)`. -/
def round3 (x : ℚ) : ℚ := (pyRoundInt (x * 1000) : ℚ) / 1000

/-- `round(x, 1)` on a float: non-finite values are returned unchanged. -/
def PyFloat.round1F : PyFloat → PyFloat
  | .fin q => .fin (round1 q)
  | x => x

/-- `round(x, 2)` on a float: non-finite values are returned unchanged. -/
def PyFloat.round2F : PyFloat → PyFloat
  | .fin q => .fin (round2 q)
  | x => x

/-- Embed a float into a JSON-like evidence value. -/
def PyFloat.toJVal : PyFloat → JVal
  | .fin q => .jfloat q
  | .inf => .jinf
  | .ninf => .jninf
  | .nan => .jnan

theorem pyRoundInt_intCast (n : ℤ) : pyRoundInt (n : ℚ) = n := by
  simp [pyRoundInt]

theorem round1_intCast (n : ℤ) : round1 (n : ℚ) = n := by
  have h : ((n : ℚ) * 10) = ((n * 10 : ℤ) : ℚ) := by push_cast; ring
  rw [round1, h, pyRoundInt_intCast]
  push_cast
  ring

/-- `datetime` values: seconds together with timezone awareness. -/
structure PyDateTime where
  aware : Bool
  sec : ℚ
deriving DecidableEq

/-- `a - b` on datetimes (`.total_seconds()`): raises `TypeError` when one
side is naive and the other aware. -/
def dtSub (a b : PyDateTime) : Except PyErr ℚ :=
  if a.aware = b.aware then .ok (a.sec - b.sec) else .error .typeError

/-- `a < b` on datetimes: same mixed-awareness `TypeError`. -/
def dtLt (a b : PyDateTime) : Except PyErr Bool :=
  if a.aware = b.aware then .ok (decide (a.sec < b.sec)) else .error .typeError

/-- `a ≥ b` on datetimes. -/
def dtGe (a b : PyDateTime) : Except PyErr Bool :=
  if a.aware = b.aware then .ok (decide (b.sec ≤ a.sec)) else .error .typeError

/-- Shift a datetime by a number of seconds (`datetime ± timedelta`). -/
def dtShift (a : PyDateTime) (d : ℚ) : PyDateTime := ⟨a.aware, a.sec + d⟩

@[simp] theorem dtSub_same_aware (a b : PyDateTime) (h : a.aware = b.aware) :
    dtSub a b = .ok (a.sec - b.sec) := by simp [dtSub, h]

end Sentinel

namespace Sentinel

/-- `SentinelEvent` from `pipeline/transform.py`.  Detector-side event
timestamps are modelled as plain rational seconds: they come out of
`normalize_event`, and the claims about the detectors quantify within a
stream of uniform timezone awareness (the correlator below, whose claim
C10 is specifically about the aware wall-clock fallback, models awareness
explicitly). -/
structure SentinelEvent where
  dataset : String
  timestamp : ℚ
  station_id : Option String
  payload : List (String × JVal)
  sequence : Option ℤ := none

/-- A detector alert.  ISO rendering of the timestamp is abstracted to the
underlying seconds value; evidence timestamps likewise appear as `jfloat`. -/
structure Alert where
  type : String
  station_id : Option String
  timestamp : ℚ
  confidence : PyFloat
  evidence : List (String × JVal)
  recommended_action : Option String

/-- Python `x or y` over optional JSON values (`dict.get` chains). -/
def orElseJ (a b : Option JVal) : Option JVal :=
  match a with
  | some v => if jTruthy v then some v else b
  | none => b

/-- `event.station_id or "unknown"` (`None` and `""` are falsy). -/
def stationOr (ev : SentinelEvent) : String :=
  match ev.station_id with
  | some s => if s = "" then "unknown" else s
  | none => "unknown"

def posDatasets : List String := ["POS_Transactions", "pos_transactions"]

end Sentinel

namespace Sentinel.Barcode

/-- Cached high-confidence vision prediction (`detection/barcode_switching.py`). -/
structure VisionPrediction where
  sku : String
  accuracy : ℚ
  timestamp : ℚ
deriving DecidableEq

/-- `_latest_predictions`, keyed by station. -/
abbrev State := List (String × VisionPrediction)

def visionDatasets : List String := ["Product_recognism", "product_recognition"]

/-- `_expire_predictions`: drop entries older than the 20s TTL. -/
def expirePredictions (now : ℚ) (st : State) : State :=
  st.filter (fun p => decide (¬ (now - p.2.timestamp > 20)))

/-- `isinstance(x, (int, float))` (true for bools) and its numeric value. -/
def numVal : JVal → Option ℚ
  | .jbool b => some (if b then 1 else 0)
  | .jint n => some (n : ℚ)
  | .jfloat q => some q
  | _ => none

/-- `_items_match`: case/whitespace-insensitive SKU comparison. -/
def itemsMatch (a b : String) : Bool := a.trim.toUpper == b.trim.toUpper

/-- `detect_barcode_switching`.  A present non-dict `"data"` value reaches
`vision_payload.get` / `pos_data.get` and raises `AttributeError`. -/
def detectBarcodeSwitching (ev : SentinelEvent) (st : State) :
    Except PyErr (List Alert × State) :=
  match ev.station_id with
  | none => .ok ([], st)
  | some station =>
    if station = "" then .ok ([], st)
    else
      let now := ev.timestamp
      if ev.dataset ∈ visionDatasets then
        match (jget ev.payload "data").getD (.jdict []) with
        | .jdict d =>
            let upd :=
              match aget d "predicted_product", (aget d "accuracy").bind numVal with
              | some (.jstr sku), some acc =>
                  if 0.65 ≤ acc then aset st station ⟨sku, acc, now⟩ else st
              | _, _ => st
            .ok ([], upd)
        | _ => .error .attributeError
      else
        let st := expirePredictions now st
        if ev.dataset ∈ posDatasets then
          match (jget ev.payload "data").getD (.jdict []) with
          | .jdict d =>
              match aget d "sku" with
              | some (.jstr scanned) =>
                  match aget st station with
                  | none => .ok ([], st)
                  | some pred =>
                      if itemsMatch pred.sku scanned then .ok ([], adel st station)
                      else
                        .ok ([{ type := "barcode_switching"
                                station_id := some station
                                timestamp := now
                                confidence := .fin (round2 (min 0.99 pred.accuracy))
                                evidence :=
                                  [("predicted_product", .jstr pred.sku),
                                   ("predicted_accuracy", .jfloat pred.accuracy),
                                   ("scanned_sku", .jstr scanned),
                                   ("product_name", (aget d "product_name").getD .jnull)]
                                recommended_action := none }],
                              adel st station)
              | _ => .ok ([], st)
          | _ => .error .attributeError
        else .ok ([], st)

end Sentinel.Barcode

namespace Sentinel.Scanner

/-- `RFIDObservation` (`detection/scanner_avoidance.py`). -/
structure RFIDObservation where
  sku : Option String
  location : String
  timestamp : ℚ
deriving DecidableEq

/-- The three module-level caches of the scanner-avoidance detector. -/
structure State where
  recentPos : List (String × ℚ)
  recentRfid : List (String × RFIDObservation)
  cooldown : List (String × ℚ)
deriving DecidableEq

def suspiciousLocations : List String :=
  ["EXIT_GATE", "EXIT_LANE", "CUSTOMER_EXIT", "OUT_OF_STORE",
   "BAGGING_AREA_BREACH", "UNKNOWN"]

def rfidDatasets : List String := ["RFID_data", "rfid_readings"]

/-- `_expire_old_records`: TTLs of 25s (POS), 60s (RFID), 30s (cooldown). -/
def expireOld (now : ℚ) (st : State) : State :=
  { recentPos := st.recentPos.filter (fun p => decide (¬ (now - p.2 > 25)))
    recentRfid := st.recentRfid.filter (fun p => decide (¬ (now - p.2.timestamp > 60)))
    cooldown := st.cooldown.filter (fun p => decide (¬ (now - p.2 > 30))) }

/-- `_should_emit_alert`: no previous alert, or strictly more than 30s ago. -/
def shouldEmitAlert (st : State) (epc : String) (now : ℚ) : Bool :=
  match aget st.cooldown epc with
  | none => true
  | some last => decide (now - last > 30)

/-- Tail of the RFID branch after the corroborating-scan check. -/
def scannerEmit (station : String) (now : ℚ) (epc : String)
    (obs : RFIDObservation) (lastScan : Option ℚ) (st : State) :
    List Alert × State :=
  if shouldEmitAlert st epc now then
    let conf : ℚ :=
      if obs.location ∈ (["CUSTOMER_EXIT", "OUT_OF_STORE"] : List String)
      then 0.9 else 0.75
    ([{ type := "scanner_avoidance"
        station_id := some station
        timestamp := now
        confidence := .fin conf
        evidence :=
          [("epc", .jstr epc),
           ("sku", match obs.sku with | some s => .jstr s | none => .jnull),
           ("location", .jstr obs.location),
           ("last_pos_scan_ts",
            match lastScan with | some t => .jfloat t | none => .jnull)]
        recommended_action := none }],
     { st with cooldown := aset st.cooldown epc now })
  else ([], st)

/-- `detect_scanner_avoidance`. -/
def detectScannerAvoidance (ev : SentinelEvent) (st : State) :
    Except PyErr (List Alert × State) :=
  let station := stationOr ev
  let now := ev.timestamp
  let st := expireOld now st
  if ev.dataset ∈ posDatasets then
    match (jget ev.payload "data").getD (.jdict []) with
    | .jdict d =>
        match aget d "sku" with
        | some (.jstr sku) =>
            .ok ([], { st with recentPos := aset st.recentPos sku now })
        | _ => .ok ([], st)
    | _ => .error .attributeError
  else if ev.dataset ∈ rfidDatasets then
    match (jget ev.payload "data").getD (.jdict []) with
    | .jdict d =>
        match aget d "epc", aget d "location" with
        | some (.jstr epc), some (.jstr loc) =>
            let obs : RFIDObservation :=
              { sku := match aget d "sku" with | some (.jstr s) => some s | _ => none
                location := loc.toUpper
                timestamp := now }
            let st := { st with recentRfid := aset st.recentRfid epc obs }
            if obs.location ∈ suspiciousLocations then
              let lastScan : Option ℚ :=
                match obs.sku with
                | some k => if k = "" then none else aget st.recentPos k
                | none => none
              match lastScan with
              | some t =>
                  if now - t ≤ 25 then .ok ([], st)
                  else .ok (scannerEmit station now epc obs (some t) st)
              | none => .ok (scannerEmit station now epc obs none st)
            else .ok ([], st)
        | _, _ => .ok ([], st)
    | _ => .error .attributeError
  else .ok ([], st)

end Sentinel.Scanner

namespace Sentinel.Weight

/-- `CatalogEntry` (`detection/weight_discrepancy.py`).  CSV catalog loading
is excluded plumbing; the loaded catalog is a parameter of the detector. -/
structure CatalogEntry where
  product_name : Option String
  expected_weight_g : Option ℚ
  price : Option ℚ
deriving DecidableEq

/-- Millisecond truncation standing for `isoformat(timespec="milliseconds")`
in the dedup key. -/
def msTrunc (t : ℚ) : ℤ := ⌊t * 1000⌋

/-- `_flagged_transactions`: dedup keys `(station, ms-timestamp, sku)`. -/
abbrev State := List (Option String × ℤ × String)

/-- `detect_weight_discrepancy`, with the loaded catalog as a parameter. -/
def detectWeightDiscrepancy (catalog : List (String × CatalogEntry))
    (ev : SentinelEvent) (st : State) : Except PyErr (List Alert × State) :=
  if ev.dataset ∈ posDatasets then
    match (jget ev.payload "data").getD (.jdict []) with
    | .jdict d =>
        let sku : Option String :=
          match aget d "sku" with | some (.jstr s) => some s | _ => none
        let measured : Option PyFloat :=
          (orElseJ (aget d "weight_g") (aget d "weight")).bind pyCoerceFloat
        match sku, measured with
        | some s, some w =>
            if s = "" then .ok ([], st)
            else
              match (aget catalog s).bind CatalogEntry.expected_weight_g with
              | none => .ok ([], st)
              | some expected =>
                  let diff := PyFloat.absF (PyFloat.subQ w expected)
                  let tolerance := max 8 (expected * 0.08)
                  if PyFloat.leQ diff tolerance then .ok ([], st)
                  else
                    let key := (ev.station_id, msTrunc ev.timestamp, s)
                    if key ∈ st then .ok ([], st)
                    else
                      let deviation :=
                        if expected ≠ 0 then PyFloat.divQ diff expected
                        else .fin 0
                      .ok ([{ type := "weight_discrepancy"
                              station_id := ev.station_id
                              timestamp := ev.timestamp
                              confidence :=
                                PyFloat.round2F
                                  (PyFloat.minF (.fin 0.99)
                                    (PyFloat.addQ 0.6 deviation))
                              evidence :=
                                [("sku", .jstr s),
                                 ("product_name",
                                  match ((aget catalog s).map CatalogEntry.product_name) with
                                  | some (some n) => .jstr n
                                  | _ => .jnull),
                                 ("measured_weight_g", PyFloat.toJVal w),
                                 ("expected_weight_g", .jfloat expected),
                                 ("difference_g", PyFloat.toJVal (PyFloat.round2F diff)),
                                 ("price",
                                  match ((aget catalog s).bind CatalogEntry.price) with
                                  | some p => .jfloat p
                                  | none => .jnull)]
                              recommended_action := none }],
                            key :: st)
        | _, _ => .ok ([], st)
    | _ => .error .attributeError
  else .ok ([], st)

end Sentinel.Weight

namespace Sentinel.SystemHealth

/-- `HealthState` (`detection/system_health.py`). -/
structure HealthState where
  last_alert : Option ℚ
  recovered : Bool
deriving DecidableEq

/-- `_health_state`, keyed by `(dataset, station_id)`. -/
abbrev State := List ((String × Option String) × HealthState)

def errorKeywords : List String := ["error", "offline", "crash", "failure", "fault"]

/-- Occurrence of `sub` anywhere in the character list. -/
def hasInfix (sub : List Char) : List Char → Bool
  | [] => sub.isEmpty
  | c :: cs => sub.isPrefixOf (c :: cs) || hasInfix sub cs

/-- Substring test used for the error-keyword scan. -/
def containsSub (s sub : String) : Bool := hasInfix sub.toList s.toList

/-- `_normalise_status`. -/
def normaliseStatus : Option JVal → Option String
  | some (.jstr s) => if s.trim = "" then none else some s.trim
  | _ => none

/-- `_is_error_status`. -/
def isErrorStatus (status : String) : Bool :=
  let lowered := status.toLower
  if lowered ∈ (["active", "ok", "ready", "online"] : List String) then false
  else errorKeywords.any (fun kw => containsSub lowered kw)

/-- First present key among the error-hint keys of the data payload. -/
def errHint (d : List (String × JVal)) : Option JVal :=
  match aget d "error_code" with
  | some v => some v
  | none =>
      match aget d "scan_error" with
      | some v => some v
      | none =>
          match aget d "scan_status" with
          | some v => some v
          | none => aget d "scanner_state"

/-- `detect_system_health`.  Total: every payload shape is guarded. -/
def detectSystemHealth (ev : SentinelEvent) (st : State) :
    Except PyErr (List Alert × State) :=
  let status0 := normaliseStatus (jget ev.payload "status")
  let data := jget ev.payload "data"
  let status1 :=
    match data, status0 with
    | some (.jdict d), none => normaliseStatus (aget d "status")
    | _, _ => status0
  let hint :=
    match data with
    | some (.jdict d) => errHint d
    | _ => none
  let errorCode := hint.map pyStr
  let status :=
    match hint with
    | some (.jstr raw) =>
        if raw.toLower.startsWith "ok" then status1 else some (status1.getD "error")
    | _ => status1
  let key := (ev.dataset, ev.station_id)
  let hstate := (aget st key).getD ⟨none, true⟩
  match status with
  | none => .ok ([], aset st key { hstate with recovered := true })
  | some s =>
      if ¬ isErrorStatus s ∧ errorCode = none then
        .ok ([], aset st key { hstate with recovered := true })
      else
        let now := ev.timestamp
        match hstate.last_alert with
        | some la =>
            if now - la < 180 then .ok ([], aset st key hstate)
            else
              .ok ([{ type := "system_error"
                      station_id := ev.station_id
                      timestamp := now
                      confidence := .fin 0.85
                      evidence :=
                        [("dataset", .jstr ev.dataset),
                         ("status", .jstr s),
                         ("error_code",
                          match errorCode with
                          | some c => .jstr c
                          | none => .jnull)]
                      recommended_action :=
                        some "Dispatch technician to inspect scanner and restart service pipeline." }],
                    aset st key ⟨some now, false⟩)
        | none =>
            .ok ([{ type := "system_error"
                    station_id := ev.station_id
                    timestamp := now
                    confidence := .fin 0.85
                    evidence :=
                      [("dataset", .jstr ev.dataset),
                       ("status", .jstr s),
                       ("error_code",
                        match errorCode with
                        | some c => .jstr c
                        | none => .jnull)]
                    recommended_action :=
                      some "Dispatch technician to inspect scanner and restart service pipeline." }],
                  aset st key ⟨some now, false⟩)

end Sentinel.SystemHealth

namespace Sentinel.QueueDet

/-- State of `detection/queue_health.py`: per-station rolling series and
per-station last-alert times for the two alert channels. -/
structure State where
  recentWaits : List (String × List (ℚ × PyFloat))
  recentQueues : List (String × List (ℚ × ℤ))
  lastAlertQueue : List (String × ℚ)
  lastAlertWait : List (String × ℚ)
deriving DecidableEq

def queueDatasets : List String := ["Queue_monitor", "queue_monitoring"]

/-- `_trim_window`: pop from the left while older than the 5-minute window. -/
def trimWindow {α : Type} (now : ℚ) (series : List (ℚ × α)) : List (ℚ × α) :=
  series.dropWhile (fun p => decide (now - p.1 > 300))

/-- `_process_queue_length`. -/
def processQueueLength (st : State) (station : String) (now : ℚ) (q : ℤ) :
    List Alert × State :=
  let series := trimWindow now (((aget st.recentQueues station).getD []) ++ [(now, q)])
  let st := { st with recentQueues := aset st.recentQueues station series }
  if q < 6 then ([], st)
  else
    let blocked :=
      match aget st.lastAlertQueue station with
      | some last => decide (now - last < 120)
      | none => false
    if blocked then ([], st)
    else
      let recentAvg : ℚ := ((series.map (fun p => (p.2 : ℚ))).sum) / series.length
      ([{ type := "queue_spike"
          station_id := some station
          timestamp := now
          confidence := .fin (min 0.95 (0.6 + ((q : ℚ) - 6) * 0.08))
          evidence :=
            [("current_queue", .jint q),
             ("recent_average", .jfloat (round2 recentAvg)),
             ("target_queue", .jint 6)]
          recommended_action :=
            some "Open an additional kiosk or direct staff assistance to self-checkout lane." }],
       { st with lastAlertQueue := aset st.lastAlertQueue station now })

/-- `_process_wait_time`.  Dwell values are floats and may be non-finite
(a string such as `"inf"` coerces to infinity); the running average and the
`avg_wait < MAX_WAIT_SECONDS` comparison follow Python float semantics, so
an infinite or NaN average passes the threshold check and can alert. -/
def processWaitTime (st : State) (station : String) (now : ℚ) (w : PyFloat) :
    List Alert × State :=
  let series := trimWindow now (((aget st.recentWaits station).getD []) ++ [(now, w)])
  let st := { st with recentWaits := aset st.recentWaits station series }
  if series.length < 3 then ([], st)
  else
    let avgWait : PyFloat :=
      PyFloat.divQ (series.foldl (fun acc p => PyFloat.add acc p.2) (.fin 0))
        series.length
    if PyFloat.ltQ avgWait 120 then ([], st)
    else
      let blocked :=
        match aget st.lastAlertWait station with
        | some last => decide (now - last < 120)
        | none => false
      if blocked then ([], st)
      else
        ([{ type := "extended_wait"
            station_id := some station
            timestamp := now
            confidence :=
              PyFloat.minF (.fin 0.99)
                (PyFloat.addQ 0.7 (PyFloat.divQ (PyFloat.subQ avgWait 120) 180))
            evidence :=
              [("recent_average_wait_s", PyFloat.toJVal (PyFloat.round1F avgWait)),
               ("threshold_s", .jint 120),
               ("observations", .jint series.length)]
            recommended_action :=
              some "Reassign associates to assist with bagging or open more kiosks to reduce dwell time." }],
         { st with lastAlertWait := aset st.lastAlertWait station now })

/-- `detect_queue_health`.  `data or {}` shields falsy non-dicts, but a
truthy non-dict `"data"` raises `AttributeError` at `data.get`; a
`customer_count` string coercing to an infinite float raises an uncaught
`OverflowError` inside `_coerce_int`. -/
def detectQueueHealth (ev : SentinelEvent) (st : State) :
    Except PyErr (List Alert × State) :=
  if ev.dataset ∈ queueDatasets then
    let station := stationOr ev
    let now := ev.timestamp
    let dataRaw := (jget ev.payload "data").getD .jnull
    let dataV := if jTruthy dataRaw then dataRaw else .jdict []
    match dataV with
    | .jdict d => do
        let ql ← pyCoerceInt ((aget d "customer_count").getD .jnull)
        let dw := pyCoerceFloat ((aget d "average_dwell_time").getD .jnull)
        let (a1, st1) :=
          match ql with
          | some q => processQueueLength st station now q
          | none => ([], st)
        let (a2, st2) :=
          match dw with
          | some w => processWaitTime st1 station now w
          | none => ([], st1)
        .ok (a1 ++ a2, st2)
    | _ => .error .attributeError
  else .ok ([], st)

end Sentinel.QueueDet

namespace Sentinel.Inventory

def inventoryDatasets : List String := ["Current_inventory_data", "inventory_snapshots"]

/-- `_last_alert`, keyed by SKU. -/
abbrev State := List (String × ℚ)

/-- The `_last_alert` cooldown test of the per-SKU loop
(`last and now - last < COOLDOWN`). -/
def invBlocked (st : State) (sku : String) (now : ℚ) : Bool :=
  match aget st sku with
  | some last => decide (now - last < 600)
  | none => false

/-- One iteration of the per-SKU loop of `detect_inventory_discrepancy`. -/
def considerSku (expected : List (String × ℤ)) (now : ℚ)
    (stationId : Option String) (acc : List Alert × State)
    (entry : String × JVal) : List Alert × State :=
  let (alerts, st) := acc
  match pyIntE entry.2 with
  | .error _ => (alerts, st)
  | .ok observed =>
      match aget expected entry.1 with
      | none => (alerts, st)
      | some exp =>
          let diff := observed - exp
          if |diff| < max 8 (pyTrunc ((exp : ℚ) * 0.12)) then (alerts, st)
          else
            let blocked := invBlocked st entry.1 now
            if blocked then (alerts, st)
            else
              (alerts ++
                 [{ type := "inventory_discrepancy"
                    station_id := stationId
                    timestamp := now
                    confidence := .fin (min 0.99 (0.6 + (|diff| : ℚ) / (max 1 exp : ℤ)))
                    evidence :=
                      [("sku", .jstr entry.1),
                       ("expected_quantity", .jint exp),
                       ("observed_quantity", .jint observed),
                       ("difference", .jint diff)]
                    recommended_action :=
                      some "Audit shelf and backroom counts for SKU and reconcile with POS adjustments." }],
               aset st entry.1 now)

/-- `detect_inventory_discrepancy`, with the loaded expected-quantity cache
as a parameter (CSV loading is excluded plumbing).  Total: the `int(...)`
conversion failure is caught in the source. -/
def detectInventoryDiscrepancy (expected : List (String × ℤ))
    (ev : SentinelEvent) (st : State) : Except PyErr (List Alert × State) :=
  if ev.dataset ∈ inventoryDatasets then
    match jget ev.payload "data" with
    | some (.jdict observed) =>
        .ok (observed.foldl (considerSku expected ev.timestamp ev.station_id) ([], st))
    | _ => .ok ([], st)
  else .ok ([], st)

/-- The SKU recorded in an alert's evidence dict. -/
def skuOfAlert (a : Alert) : Option String :=
  match aget a.evidence "sku" with
  | some (.jstr s) => some s
  | _ => none

end Sentinel.Inventory

namespace Sentinel

/-- Combined state of the six detectors (`detection/__init__.py`). -/
structure DetectorsState where
  barcode : Barcode.State
  scanner : Scanner.State
  weight : Weight.State
  system : SystemHealth.State
  queue : QueueDet.State
  inventory : Inventory.State

/-- The reset state (`reset_all`). -/
def initialDetectors : DetectorsState :=
  ⟨[], ⟨[], [], []⟩, [], [], ⟨[], [], [], []⟩, []⟩

/-- `process_event`: run the detectors in `DETECTOR_FUNCS` order and
concatenate their alerts.  There is no exception isolation: an error in one
detector aborts the loop before the remaining detectors run. -/
def processEvent (catalog : List (String × Weight.CatalogEntry))
    (expected : List (String × ℤ)) (ev : SentinelEvent) (st : DetectorsState) :
    Except PyErr (List Alert × DetectorsState) := do
  let (a1, b) ← Barcode.detectBarcodeSwitching ev st.barcode
  let (a2, sc) ← Scanner.detectScannerAvoidance ev st.scanner
  let (a3, w) ← Weight.detectWeightDiscrepancy catalog ev st.weight
  let (a4, sy) ← SystemHealth.detectSystemHealth ev st.system
  let (a5, q) ← QueueDet.detectQueueHealth ev st.queue
  let (a6, i) ← Inventory.detectInventoryDiscrepancy expected ev st.inventory
  return (a1 ++ a2 ++ a3 ++ a4 ++ a5 ++ a6, ⟨b, sc, w, sy, q, i⟩)

end Sentinel

namespace Sentinel

/-- Keep the most recent `n` elements (`deque(maxlen=n)` after `extend`). -/
def takeLast {α : Type} (n : ℕ) (l : List α) : List α := l.drop (l.length - n)

end Sentinel

namespace Sentinel.Correlator

/-- An observation recorded by `EventCorrelator.register_event`. -/
structure CorrEvent where
  stream : String
  station_id : String
  timestamp : PyDateTime
  payload : List (String × JVal)

/-- Dedup key `(station, sku, timestamp.isoformat(timespec="seconds"))`;
the ISO string is abstracted to the awareness flag plus the
second-truncated value, which distinguishes strings exactly when these do. -/
abbrev SeenKey := String × String × Bool × ℤ

def seenKey (stationId sku : String) (t : PyDateTime) : SeenKey :=
  (stationId, sku, t.aware, ⌊t.sec⌋)

/-- `correlated_checkout` output record. -/
structure CorrRecord where
  event_type : String
  station_id : String
  timestamp : PyDateTime
  confidence : ℚ
  sku : String
  rfid_matches : ℕ
  vision_matches : ℕ
  time_alignment : ℚ
  pos_payload : JVal

/-- `suspicious_checkout` output record. -/
structure SuspRecord where
  event_type : String
  station_id : String
  timestamp : PyDateTime
  sku : String
  reasons : List String
  confidence : ℚ
  pos_payload : JVal

/-- `EventCorrelator` state. -/
structure CState where
  window : ℚ
  maxHistory : ℕ
  events : List CorrEvent
  correlated : List CorrRecord
  suspicious : List SuspRecord
  seenCorrelations : List SeenKey
  seenSuspicious : List SeenKey

/-- `EventCorrelator.__init__`. -/
def mkCorrelator (windowSeconds : ℤ) (maxHistory : ℕ) : CState :=
  { window := (max 1 windowSeconds : ℤ)
    maxHistory := maxHistory
    events := []
    correlated := []
    suspicious := []
    seenCorrelations := []
    seenSuspicious := [] }

/-- `_normalise_stream_name` applied to `stream or event.get("dataset")`. -/
def normaliseStreamArg (stream : String) (event : List (String × JVal)) : String :=
  if stream ≠ "" then stream.trim.toLower
  else
    match jget event "dataset" with
    | some v => if jTruthy v then (pyStr v).trim.toLower else "unknown"
    | none => "unknown"

/-- `_extract_sku` candidate scan. -/
def firstGoodSku : List (Option JVal) → Option String
  | [] => none
  | some (.jstr s) :: rest =>
      if s.trim ≠ "" then some s.trim else firstGoodSku rest
  | _ :: rest => firstGoodSku rest

/-- `_deep_get(payload, a, b)`. -/
def deepGet2 (payload : List (String × JVal)) (k1 k2 : String) : Option JVal :=
  match jget payload k1 with
  | some (.jdict d) => aget d k2
  | _ => none

/-- `_extract_sku`. -/
def extractSku (payload : List (String × JVal)) : Option String :=
  firstGoodSku
    [deepGet2 payload "data" "sku",
     deepGet2 payload "data" "predicted_product",
     jget payload "sku",
     jget payload "predicted_product",
     jget payload "product_id"]

/-- `_time_alignment`: zero without matches, else
`max(0, 1 - min |pivot - other| / max(window, 1))`; subtracting a naive from
an aware datetime raises. -/
def timeAlignment (window : ℚ) (pivot : PyDateTime) (others : List PyDateTime) :
    Except PyErr ℚ :=
  match others with
  | [] => .ok 0
  | o :: rest => do
      let d0 ← (dtSub pivot o).map abs
      let ds ← rest.mapM (fun x => (dtSub pivot x).map abs)
      let minDiff := ds.foldl min d0
      .ok (max 0 (1 - minDiff / max window 1))

/-- `_confidence_score`. -/
def confidenceScore (hasRfid hasVision : Bool) (alignment : ℚ) : ℚ :=
  min (0.35 + (if hasRfid then (0.35 : ℚ) else 0)
        + (if hasVision then (0.22 : ℚ) else 0)
        + min 0.08 (alignment * 0.1)) 1

/-- `pos_payload` field: `payload.get("data", payload)`. -/
def posPayloadOf (payload : List (String × JVal)) : JVal :=
  (jget payload "data").getD (.jdict payload)

/-- `_build_correlation`. -/
def buildCorrelation (stationId sku : String) (pos : CorrEvent)
    (rfidMatches visionMatches : List CorrEvent) (confidence alignment : ℚ)
    (seen : List SeenKey) : List CorrRecord × List SeenKey :=
  let key := seenKey stationId sku pos.timestamp
  if confidence < 0.6 ∨ key ∈ seen then ([], seen)
  else
    ([{ event_type := "correlated_checkout"
        station_id := stationId
        timestamp := pos.timestamp
        confidence := round2 confidence
        sku := sku
        rfid_matches := rfidMatches.length
        vision_matches := visionMatches.length
        time_alignment := round2 alignment
        pos_payload := posPayloadOf pos.payload }],
     key :: seen)

/-- `_build_suspicious`. -/
def buildSuspicious (stationId sku : String) (pos : CorrEvent)
    (rfidMatches visionEvents visionMatches : List CorrEvent)
    (confidence : ℚ) (seen : List SeenKey) : List SuspRecord × List SeenKey :=
  let visionPredictions :=
    visionEvents.filterMap (fun e => extractSku e.payload)
  let rfidSkus :=
    rfidMatches.filterMap (fun e => extractSku e.payload)
  let reasons :=
    (if rfidMatches.isEmpty then ["Missing RFID"] else []) ++
    (if visionMatches.isEmpty then ["Missing Vision"] else []) ++
    (if ¬ visionMatches.isEmpty ∧ sku ∉ visionPredictions
     then ["Vision mismatch"] else []) ++
    (if ¬ rfidMatches.isEmpty ∧ sku ∉ rfidSkus
     then ["RFID mismatch"] else []) ++
    (if confidence < 0.5 then ["Low confidence correlation"] else [])
  if reasons.isEmpty then ([], seen)
  else
    let key := seenKey stationId sku pos.timestamp
    if key ∈ seen then ([], seen)
    else
      ([{ event_type := "suspicious_checkout"
          station_id := stationId
          timestamp := pos.timestamp
          sku := sku
          reasons := reasons
          confidence := round2 confidence
          pos_payload := posPayloadOf pos.payload }],
       key :: seen)

/-- `_assess_pos_event`. -/
def assessPosEvent (window : ℚ) (stationId : String) (pos : CorrEvent)
    (rfidEvents visionEvents : List CorrEvent)
    (seenC seenS : List SeenKey) :
    Except PyErr
      (List CorrRecord × List SuspRecord × List SeenKey × List SeenKey) :=
  match extractSku pos.payload with
  | none => .ok ([], [], seenC, seenS)
  | some sku => do
      let rfidMatches :=
        rfidEvents.filter (fun e => decide (extractSku e.payload = some sku))
      let visionMatches :=
        visionEvents.filter (fun e => decide (extractSku e.payload = some sku))
      let alignment ←
        timeAlignment window pos.timestamp
          ((rfidMatches ++ visionMatches).map CorrEvent.timestamp)
      let confidence :=
        confidenceScore (!rfidMatches.isEmpty) (!visionMatches.isEmpty) alignment
      let (corr, seenC) :=
        buildCorrelation stationId sku pos rfidMatches visionMatches
          confidence alignment seenC
      let (susp, seenS) :=
        buildSuspicious stationId sku pos rfidMatches visionEvents visionMatches
          confidence seenS
      .ok (corr, susp, seenC, seenS)

/-- The station/window filter of `_collect_recent_events`; the timestamp
comparison is short-circuited behind the station match, as in the source. -/
def filterRecent (stationId : String) (ws : PyDateTime) :
    List CorrEvent → Except PyErr (List CorrEvent)
  | [] => .ok []
  | e :: rest =>
      if e.station_id = stationId then do
        let ge ← dtGe e.timestamp ws
        let tail ← filterRecent stationId ws rest
        .ok (if ge then e :: tail else tail)
      else filterRecent stationId ws rest

/-- `_collect_recent_events`. -/
def collectRecent (events : List CorrEvent) (stationId : String) (window : ℚ) :
    Except PyErr (List CorrEvent) :=
  match events.getLast? with
  | none => .ok []
  | some lastEv =>
      filterRecent stationId (dtShift lastEv.timestamp (-window)) events

def rfidStreams : List String := ["rfid", "rfid_data", "rfid_readings"]
def posStreams : List String := ["pos", "pos_transactions"]
def visionStreams : List String := ["vision", "product_recognition", "product_recognism"]

/-- The per-POS-event loop of `_evaluate_station`, threading the dedup sets. -/
def evalPosList (window : ℚ) (stationId : String)
    (rfid vision : List CorrEvent) :
    List CorrEvent → List SeenKey → List SeenKey →
    Except PyErr
      (List CorrRecord × List SuspRecord × List SeenKey × List SeenKey)
  | [], seenC, seenS => .ok ([], [], seenC, seenS)
  | p :: ps, seenC, seenS => do
      let (c, s, seenC, seenS) ←
        assessPosEvent window stationId p rfid vision seenC seenS
      let (cs, ss, seenC, seenS) ←
        evalPosList window stationId rfid vision ps seenC seenS
      .ok (c ++ cs, s ++ ss, seenC, seenS)

/-- `_evaluate_station`.  On an escaping exception the partially updated
dedup sets of the source are not modelled: no claim observes state after an
exception from this method (the C10 counterexample raises earlier, in
`_prune`). -/
def evaluateStation (st : CState) (stationId : String) :
    Except PyErr (List CorrRecord × List SuspRecord × CState) := do
  let recent ← collectRecent st.events stationId st.window
  if recent.isEmpty then .ok ([], [], st)
  else
    let rfid := recent.filter (fun e => decide (e.stream ∈ rfidStreams))
    let pos := recent.filter (fun e => decide (e.stream ∈ posStreams))
    let vision := recent.filter (fun e => decide (e.stream ∈ visionStreams))
    let (cs, ss, seenC, seenS) ←
      evalPosList st.window stationId rfid vision pos
        st.seenCorrelations st.seenSuspicious
    .ok (cs, ss, { st with seenCorrelations := seenC, seenSuspicious := seenS })

/-- `_prune`: pop stale events from the front; a mixed-awareness comparison
raises, leaving the deque as mutated so far. -/
def pruneEvents (ws : PyDateTime) :
    List CorrEvent → Option PyErr × List CorrEvent
  | [] => (none, [])
  | e :: rest =>
      match dtLt e.timestamp ws with
      | .error err => (some err, e :: rest)
      | .ok true => pruneEvents ws rest
      | .ok false => (none, e :: rest)

/-- `_parse_timestamp`: ISO strings parse via the ambient parser (a
parameter abstracting `datetime.fromisoformat`), anything else falls back
to the timezone-aware wall clock `datetime.now(timezone.utc)`. -/
def parseTimestampJ (isoParse : String → Option PyDateTime)
    (v : Option JVal) (now : ℚ) : PyDateTime :=
  match v with
  | some (.jstr s) => (isoParse s).getD ⟨true, now⟩
  | _ => ⟨true, now⟩

/-- `str(event.get("station_id", "UNKNOWN"))` in `register_event`. -/
def regStationId (event : List (String × JVal)) : String :=
  match jget event "station_id" with
  | some v => pyStr v
  | none => "UNKNOWN"

/-- `register_event`.  The state is returned alongside the result even when
an exception is raised, reflecting the in-place mutations performed before
the raise (the append into `_events` precedes `_prune`). -/
def registerEvent (isoParse : String → Option PyDateTime) (now : ℚ)
    (stream : String) (event : List (String × JVal)) (st : CState) :
    Except PyErr (List CorrRecord × List SuspRecord) × CState :=
  let stationId := regStationId event
  let timestamp := parseTimestampJ isoParse (jget event "timestamp") now
  let record : CorrEvent :=
    { stream := normaliseStreamArg stream event
      station_id := stationId
      timestamp := timestamp
      payload := event }
  let events := st.events ++ [record]
  match pruneEvents (dtShift timestamp (-st.window)) events with
  | (some err, remaining) => (.error err, { st with events := remaining })
  | (none, remaining) =>
      let st := { st with events := remaining }
      match evaluateStation st stationId with
      | .error err => (.error err, st)
      | .ok (cs, ss, st) =>
          (.ok (cs, ss),
           { st with
               correlated := takeLast st.maxHistory (st.correlated ++ cs)
               suspicious := takeLast st.maxHistory (st.suspicious ++ ss) })

end Sentinel.Correlator

namespace Sentinel.QM

/-- `QueueSnapshot` (`analytics/queue_metrics.py`). -/
structure QueueSnapshot where
  timestamp : PyDateTime
  station_id : String
  customer_count : ℤ
  average_dwell_time : ℚ
  status : String
  service_rate : ℚ
  delta_customers : ℤ
  notes : String
deriving DecidableEq

/-- An entry of the `alerts` list of a health report.  The f-string
`message` field is presentation-only and not modelled. -/
structure QAlert where
  type : String
  priority : String
deriving DecidableEq

/-- The health dict returned by `calculate_queue_health`.  Presentation
fields are omitted: `volatility` (whose reported value needs a square root;
only the score branch it drives is modelled, see `volatilityExceedsHalf`),
the ISO `timestamp` string, and the trailing `history` dump. -/
structure HealthReport where
  station_id : String
  health_score : ℚ
  status : String
  alerts : List QAlert
  customer_count : ℤ
  average_dwell_time : ℚ
  service_rate : ℚ
  trend : ℚ
deriving DecidableEq

/-- An incident record.  `incident_id` (a random uuid), the f-string
`message` and the `metadata`/ISO-timestamp fields are presentation-only and
not modelled; incident detection is fully captured by type + priority. -/
structure Incident where
  station_id : String
  type : String
  priority : String
deriving DecidableEq

/-- `QueueMetricsService` state. -/
structure QMService where
  target : ℤ
  historyLength : ℕ
  incidentLength : ℕ
  histories : List (String × List QueueSnapshot)
  alertHistory : List Incident
deriving DecidableEq

/-- `QueueMetricsService.__init__` (`target` clamped to at least 1). -/
def mkService (target : ℤ) (historyLength incidentLength : ℕ) : QMService :=
  ⟨max 1 target, historyLength, incidentLength, [], []⟩

def dwellWarning : ℚ := 240
def dwellCritical : ℚ := 480
def queueWarning (svc : QMService) : ℤ := svc.target + 2
def queueCritical (svc : QMService) : ℤ := svc.target * 2
def trendWindow (svc : QMService) : ℕ := min svc.historyLength 12

/-- `_score_to_status`. -/
def scoreToStatus (score : ℚ) : String :=
  if 85 ≤ score then "optimal"
  else if 70 ≤ score then "stable"
  else if 50 ≤ score then "at-risk"
  else "critical"

/-- `_calculate_trend`. -/
def calculateTrend (svc : QMService) (history : List QueueSnapshot) : ℚ :=
  let snapshots := takeLast (trendWindow svc) history
  if snapshots.length < 2 then 0
  else
    match snapshots.head?, snapshots.getLast? with
    | some s0, some s1 =>
        if s0.customer_count = 0 ∧ s1.customer_count = 0 then 0
        else if s0.customer_count = 0 then 1
        else ((s1.customer_count - s0.customer_count : ℤ) : ℚ) / (s0.customer_count : ℚ)
    | _, _ => 0

/-- The branch condition `self._calculate_volatility(history) > 0.5`.
The source computes `min(1.0, variance ** 0.5 / mean)` and compares with
`0.5`.  Since `min(1, x) > 1/2 ↔ x > 1/2`, and for `mean > 0` one has
`√variance / mean > 1/2 ↔ mean² < 4·variance` (for `mean < 0` the ratio is
nonpositive, hence never above `1/2`), the square root is eliminated in
favour of this rational inequality. -/
def volatilityExceedsHalf (svc : QMService) (history : List QueueSnapshot) : Bool :=
  let counts :=
    (takeLast (trendWindow svc) history).map (fun s => (s.customer_count : ℚ))
  if counts.length < 3 then false
  else
    let meanVal := counts.sum / (counts.length : ℚ)
    if meanVal = 0 then false
    else
      let variance :=
        (counts.map (fun c => (c - meanVal) ^ 2)).sum / (counts.length : ℚ)
      decide (0 < meanVal ∧ meanVal ^ 2 < 4 * variance)

/-- `calculate_queue_health`. -/
def calculateQueueHealth (svc : QMService) (station : String) : HealthReport :=
  let history := (aget svc.histories station).getD []
  match history.getLast? with
  | none =>
      { station_id := station, health_score := 100, status := "unknown"
        alerts := [], customer_count := 0, average_dwell_time := 0
        service_rate := 0, trend := 0 }
  | some latest =>
      let dwellPart : ℚ × List QAlert :=
        if dwellCritical ≤ latest.average_dwell_time then
          (45, [⟨"dwell_time_critical", "high"⟩])
        else if dwellWarning ≤ latest.average_dwell_time then
          (25, [⟨"dwell_time_warning", "medium"⟩])
        else (0, [])
      let countPart : ℚ × List QAlert :=
        if queueCritical svc ≤ latest.customer_count then
          (30, [⟨"queue_congestion", "high"⟩])
        else if queueWarning svc ≤ latest.customer_count then
          (18, [⟨"queue_building", "medium"⟩])
        else (0, [])
      let servicePart : ℚ × List QAlert :=
        if 0 < latest.customer_count ∧ latest.service_rate < 1 then
          (12, [⟨"service_rate_low", "medium"⟩])
        else (0, [])
      let trendVal := calculateTrend svc history
      let trendPart : ℚ × List QAlert :=
        if (0.35 : ℚ) < trendVal then (8, [⟨"queue_growth", "medium"⟩])
        else if trendVal < -(0.4 : ℚ) then (-3, [])
        else (0, [])
      let volPart : ℚ := if volatilityExceedsHalf svc history then 4 else 0
      let score :=
        max 0 (min (100 - dwellPart.1 - countPart.1 - servicePart.1
                      - trendPart.1 - volPart) 100)
      { station_id := station
        health_score := round1 score
        status := scoreToStatus score
        alerts := dwellPart.2 ++ countPart.2 ++ servicePart.2 ++ trendPart.2
        customer_count := latest.customer_count
        average_dwell_time := round1 latest.average_dwell_time
        service_rate := round2 latest.service_rate
        trend := round3 trendVal }

/-- `_stagnation_duration_minutes`: length in minutes of the maximal
constant-count suffix of the history. -/
def stagnationMinutes (history : List QueueSnapshot) : Except PyErr ℚ :=
  if history.length < 2 then .ok 0
  else
    match history.reverse with
    | [] => .ok 0
    | newest :: rest =>
        let stagnant :=
          newest :: rest.takeWhile
            (fun s => decide (s.customer_count = newest.customer_count))
        if stagnant.length < 2 then .ok 0
        else
          match stagnant.getLast? with
          | none => .ok 0
          | some oldest => do
              let d ← dtSub newest.timestamp oldest.timestamp
              .ok (max (d / 60) 0)

/-- `_detect_incidents`. -/
def detectIncidents (svc : QMService) (station : String) :
    Except PyErr (List Incident) := do
  let history := (aget svc.histories station).getD []
  match takeLast 2 history with
  | [previous, latest] =>
      let surges :=
        if 0 < previous.customer_count then
          let sr : ℚ :=
            ((latest.customer_count - previous.customer_count : ℤ) : ℚ)
              / ((max previous.customer_count 1 : ℤ) : ℚ)
          if (0.6 : ℚ) ≤ sr ∧ queueWarning svc ≤ latest.customer_count then
            [⟨station, "queue_surge", "high"⟩]
          else []
        else []
      let stagnation ← stagnationMinutes history
      let stalled :=
        if (2 : ℚ) ≤ stagnation ∧ queueWarning svc ≤ latest.customer_count then
          [(⟨station, "stalled_checkout", "high"⟩ : Incident)]
        else []
      let cleared :=
        if latest.customer_count = 0 ∧ svc.target ≤ previous.customer_count then
          [(⟨station, "queue_cleared", "low"⟩ : Incident)]
        else []
      let extreme :=
        if dwellCritical ≤ latest.average_dwell_time then
          [(⟨station, "extreme_wait", "critical"⟩ : Incident)]
        else []
      .ok (surges ++ stalled ++ cleared ++ extreme)
  | _ => .ok []

/-- `ingest_observation`. -/
def ingestObservation (isoParse : String → Option PyDateTime) (nowNaive : ℚ)
    (svc : QMService) (stationArg : String) (payload : List (String × JVal)) :
    Except PyErr (QMService × HealthReport) := do
  let station :=
    if stationArg ≠ "" then stationArg
    else
      match jget payload "station_id" with
      | some v => pyStr v
      | none => "UNK"
  let timestamp :=
    match jget payload "timestamp" with
    | some (.jstr s) => (isoParse s).getD ⟨false, nowNaive⟩
    | _ => ⟨false, nowNaive⟩
  let ccVal :=
    let v1 := (jget payload "customer_count").getD .jnull
    let v2 := (jget payload "customers").getD (.jint 0)
    if jTruthy v1 then v1 else if jTruthy v2 then v2 else .jint 0
  let customerCount ← pyIntE ccVal
  let dwVal :=
    let w1 := (jget payload "average_dwell_time").getD .jnull
    let w2 := (jget payload "avg_wait").getD (.jfloat 0)
    if jTruthy w1 then w1 else if jTruthy w2 then w2 else .jfloat 0
  let dwellTime ← pyFloatE dwVal
  let status := pyStr ((jget payload "status").getD (.jstr "active"))
  let history := (aget svc.histories station).getD []
  let previous := history.getLast?
  let deltaCustomers :=
    match previous with
    | some p => customerCount - p.customer_count
    | none => 0
  let serviceRate ← (do
    match jget payload "service_rate" with
    | some .jnull | none =>
        match previous with
        | some p => do
            let dt ← dtSub timestamp p.timestamp
            let elapsed := max dt 1
            let serviced : ℤ := max (p.customer_count - customerCount) 0
            pure ((serviced : ℚ) * 60 / elapsed)
        | none => pure (0 : ℚ)
    | some v => if jTruthy v then pyFloatE v else pure (0 : ℚ) :
      Except PyErr ℚ)
  let snapshot : QueueSnapshot :=
    { timestamp := timestamp
      station_id := station
      customer_count := customerCount
      average_dwell_time := dwellTime
      status := status
      service_rate := serviceRate
      delta_customers := deltaCustomers
      notes := pyStr ((jget payload "notes").getD (.jstr "")) }
  let svc := { svc with
    histories := aset svc.histories station
      (takeLast svc.historyLength (history ++ [snapshot])) }
  let incidents ← detectIncidents svc station
  let svc := { svc with
    alertHistory := takeLast svc.incidentLength (svc.alertHistory ++ incidents) }
  return (svc, calculateQueueHealth svc station)

/-- The latest snapshot of every nonempty station history. -/
def latestSnapshots (svc : QMService) : List QueueSnapshot :=
  svc.histories.filterMap (fun p => p.2.getLast?)

/-- The staffing dict of `calculate_staff_allocation`.  The
`efficiency_ratio` field (total over active stations, rounded) is
presentation-only and omitted. -/
structure StaffAllocation where
  recommendation : String
  active_stations : ℤ
  required_stations : ℤ
  total_customers : ℤ
  target_per_station : ℤ
deriving DecidableEq

/-- `calculate_staff_allocation`. -/
def calculateStaffAllocation (svc : QMService) : StaffAllocation :=
  let latest := latestSnapshots svc
  let total : ℤ := (latest.map QueueSnapshot.customer_count).sum
  let active : ℤ := max 1 (latest.length : ℤ)
  let required : ℤ := max 1 ⌈(total : ℚ) / (svc.target : ℚ)⌉
  let recommendation :=
    if active < required then
      "Open " ++ toString (required - active) ++ " additional station(s)"
    else if required < active then
      "Idle " ++ toString (active - required) ++ " station(s) if demand stays low"
    else "Maintain current staffing"
  ⟨recommendation, active, required, total, svc.target⟩

end Sentinel.QM

namespace Sentinel

theorem itePair3_int {c1 c2 : Prop} [Decidable c1] [Decidable c2] {α : Type}
    (v1 v2 v3 : ℤ) (l1 l2 l3 : α) :
    ∃ n : ℤ,
      (if c1 then ((v1 : ℚ), l1)
       else if c2 then ((v2 : ℚ), l2) else ((v3 : ℚ), l3)).fst = n := by
  by_cases h1 : c1
  · exact ⟨v1, by rw [if_pos h1]⟩
  · by_cases h2 : c2
    · exact ⟨v2, by rw [if_neg h1, if_pos h2]⟩
    · exact ⟨v3, by rw [if_neg h1, if_neg h2]⟩

theorem itePair2_int {c : Prop} [Decidable c] {α : Type}
    (v1 v2 : ℤ) (l1 l2 : α) :
    ∃ n : ℤ, (if c then ((v1 : ℚ), l1) else ((v2 : ℚ), l2)).fst = n := by
  by_cases h : c
  · exact ⟨v1, by rw [if_pos h]⟩
  · exact ⟨v2, by rw [if_neg h]⟩

theorem ite_int {c : Prop} [Decidable c] (v1 v2 : ℤ) :
    ∃ n : ℤ, (if c then (v1 : ℚ) else (v2 : ℚ)) = n := by
  by_cases h : c
  · exact ⟨v1, by rw [if_pos h]⟩
  · exact ⟨v2, by rw [if_neg h]⟩

theorem healthScoreCore (a b c d e : ℚ)
    (ha : ∃ n : ℤ, a = n) (hb : ∃ n : ℤ, b = n) (hc : ∃ n : ℤ, c = n)
    (hd : ∃ n : ℤ, d = n) (he : ∃ n : ℤ, e = n) :
    0 ≤ round1 (max 0 (min (100 - a - b - c - d - e) 100)) ∧
    round1 (max 0 (min (100 - a - b - c - d - e) 100)) ≤ 100 ∧
    QM.scoreToStatus (max 0 (min (100 - a - b - c - d - e) 100)) =
      QM.scoreToStatus (round1 (max 0 (min (100 - a - b - c - d - e) 100))) := by
  obtain ⟨na, rfl⟩ := ha
  obtain ⟨nb, rfl⟩ := hb
  obtain ⟨nc, rfl⟩ := hc
  obtain ⟨nd, rfl⟩ := hd
  obtain ⟨ne', rfl⟩ := he
  have hcast :
      max 0 (min (100 - (na : ℚ) - nb - nc - nd - ne') 100)
        = ((max 0 (min (100 - na - nb - nc - nd - ne') 100) : ℤ) : ℚ) := by
    push_cast
    ring_nf
  have hr : round1 (max 0 (min (100 - (na : ℚ) - nb - nc - nd - ne') 100))
      = max 0 (min (100 - (na : ℚ) - nb - nc - nd - ne') 100) := by
    rw [hcast, round1_intCast]
  refine ⟨?_, ?_, ?_⟩
  · rw [hr]; exact le_max_left 0 _
  · rw [hr]
    exact max_le (by norm_num) (le_trans (min_le_right _ _) (by norm_num))
  · rw [hr]

end Sentinel

namespace Sentinel

/-- C2: for every station with at least one ingested queue observation, the
health score returned by `calculate_queue_health` lies in `[0, 100]`, and
the reported status is the deterministic bucketing of that final score
(`≥85` optimal, `≥70` stable, `≥50` at-risk, else critical, as
`scoreToStatus` states). -/
theorem C2_queue_health_bounds (svc : QM.QMService) (station : String)
    (h : (aget svc.histories station).getD [] ≠ []) :
    0 ≤ (QM.calculateQueueHealth svc station).health_score ∧
    (QM.calculateQueueHealth svc station).health_score ≤ 100 ∧
    (QM.calculateQueueHealth svc station).status =
      QM.scoreToStatus (QM.calculateQueueHealth svc station).health_score := by
  obtain ⟨latest, hl⟩ :
      ∃ l, ((aget svc.histories station).getD []).getLast? = some l := by
    cases hh : ((aget svc.histories station).getD []).getLast? with
    | none => exact absurd (List.getLast?_eq_none_iff.mp hh) h
    | some l => exact ⟨l, rfl⟩
  simp only [QM.calculateQueueHealth, hl]
  exact healthScoreCore _ _ _ _ _
    (itePair3_int 45 25 0 _ _ _) (itePair3_int 30 18 0 _ _ _)
    (itePair2_int 12 0 _ _) (itePair3_int 8 (-3) 0 _ _ _) (ite_int 4 0)

def snapC2 : QM.QueueSnapshot :=
  ⟨⟨false, 0⟩, "S", 4, 0, "active", 0, 0, ""⟩

def svcC2 : QM.QMService :=
  ⟨4, 60, 200, [("S", [snapC2])], []⟩

theorem C2_queue_health_bounds_witness :
    (aget svcC2.histories "S").getD [] ≠ [] ∧
    (0 ≤ (QM.calculateQueueHealth svcC2 "S").health_score ∧
     (QM.calculateQueueHealth svcC2 "S").health_score ≤ 100 ∧
     (QM.calculateQueueHealth svcC2 "S").status =
       QM.scoreToStatus (QM.calculateQueueHealth svcC2 "S").health_score) :=
  ⟨by decide, C2_queue_health_bounds svcC2 "S" (by decide)⟩

end Sentinel

namespace Sentinel

/-- Total customer count across the latest snapshots of every station. -/
def QM.totalCustomers (svc : QM.QMService) : ℤ :=
  ((QM.latestSnapshots svc).map QM.QueueSnapshot.customer_count).sum

/-- Timestamp parser used by the concrete queue-metrics scenarios. -/
def isoParseQ : String → Option PyDateTime :=
  fun s =>
    if s = "T0" then some ⟨false, 0⟩
    else if s = "T60" then some ⟨false, 60⟩
    else none

/-- The queue-health engine state after ingesting one observation with no
customer count (count coerces to 0): a reachable state whose total customer
count is zero. -/
def svcC9 : QM.QMService :=
  match QM.ingestObservation isoParseQ 0 (QM.mkService 6 60 200) "S"
      [("timestamp", .jstr "T0")] with
  | .ok r => r.1
  | .error _ => QM.mkService 6 60 200

/-- C9 counterexample: in the reachable state with one station whose latest
snapshot has customer count 0, `calculate_staff_allocation` reports
`required_stations = 1`, while the ceiling of `total/target = 0/6` is `0`:
the claimed equality fails at the zero-total state. -/
theorem C9_counterexample :
    (QM.ingestObservation isoParseQ 0 (QM.mkService 6 60 200) "S"
        [("timestamp", .jstr "T0")]).map Prod.fst = .ok svcC9 ∧
    QM.totalCustomers svcC9 = 0 ∧
    (QM.calculateStaffAllocation svcC9).required_stations = 1 ∧
    ⌈(QM.totalCustomers svcC9 : ℚ) / (svcC9.target : ℚ)⌉ = 0 ∧
    (QM.calculateStaffAllocation svcC9).required_stations ≠
      ⌈(QM.totalCustomers svcC9 : ℚ) / (svcC9.target : ℚ)⌉ := by
  have ht : QM.totalCustomers svcC9 = 0 := by rfl
  have htg : svcC9.target = 6 := by rfl
  have hceil : ⌈(QM.totalCustomers svcC9 : ℚ) / (svcC9.target : ℚ)⌉ = 0 := by
    rw [ht, htg]; norm_num
  have hmax : (QM.calculateStaffAllocation svcC9).required_stations
      = max 1 ⌈(QM.totalCustomers svcC9 : ℚ) / (svcC9.target : ℚ)⌉ := rfl
  have hreq : (QM.calculateStaffAllocation svcC9).required_stations = 1 := by
    rw [hmax, hceil]; decide
  exact ⟨by rfl, ht, hreq, hceil, by rw [hreq, hceil]; decide⟩

/-- C9 (amended): `required_stations` equals
`max(1, ceil(total_customers_across_latest_snapshots / target))`; the
claimed un-clamped ceiling formula holds whenever the total is at least 1
(the clamp to 1 only changes the result at nonpositive totals). -/
theorem C9_required_stations (svc : QM.QMService) (h : 1 ≤ svc.target) :
    (QM.calculateStaffAllocation svc).required_stations
      = max 1 ⌈(QM.totalCustomers svc : ℚ) / (svc.target : ℚ)⌉ ∧
    (1 ≤ QM.totalCustomers svc →
      (QM.calculateStaffAllocation svc).required_stations
        = ⌈(QM.totalCustomers svc : ℚ) / (svc.target : ℚ)⌉) := by
  constructor
  · rfl
  · intro htot
    have htarget : (0 : ℚ) < (svc.target : ℚ) := by exact_mod_cast h
    have htotq : (0 : ℚ) < (QM.totalCustomers svc : ℚ) := by
      exact_mod_cast lt_of_lt_of_le Int.zero_lt_one htot
    have hpos : (0 : ℚ) < (QM.totalCustomers svc : ℚ) / (svc.target : ℚ) :=
      div_pos htotq htarget
    have hceil : (1 : ℤ) ≤ ⌈(QM.totalCustomers svc : ℚ) / (svc.target : ℚ)⌉ :=
      Int.ceil_pos.mpr hpos
    show max 1 ⌈(QM.totalCustomers svc : ℚ) / (svc.target : ℚ)⌉ = _
    exact max_eq_right hceil

def snapC9w : QM.QueueSnapshot :=
  ⟨⟨false, 0⟩, "S", 5, 0, "active", 0, 0, ""⟩

def svcC9w : QM.QMService :=
  ⟨4, 60, 200, [("S", [snapC9w])], []⟩

theorem C9_required_stations_witness :
    (1 ≤ svcC9w.target ∧ 1 ≤ QM.totalCustomers svcC9w) ∧
    (QM.calculateStaffAllocation svcC9w).required_stations
      = ⌈(QM.totalCustomers svcC9w : ℚ) / (svcC9w.target : ℚ)⌉ :=
  ⟨⟨by decide, by decide⟩,
   (C9_required_stations svcC9w (by decide)).2 (by decide)⟩

end Sentinel

namespace Sentinel

/-- The C5 scenario run: a service with `target_customers_per_station = 4`
ingesting customer counts 4 then 9, one minute apart, at station `"S"`. -/
def runC5 : Except PyErr (QM.QMService × QM.HealthReport) := do
  let r1 ← QM.ingestObservation isoParseQ 0 (QM.mkService 4 60 200) "S"
      [("timestamp", .jstr "T0"), ("customer_count", .jint 4)]
  QM.ingestObservation isoParseQ 0 r1.1 "S"
      [("timestamp", .jstr "T60"), ("customer_count", .jint 9)]

def svcC5 : QM.QMService :=
  match runC5 with
  | .ok r => r.1
  | .error _ => QM.mkService 4 60 200

def repC5 : QM.HealthReport :=
  match runC5 with
  | .ok r => r.2
  | .error _ =>
      { station_id := "S", health_score := 0, status := "", alerts := []
        customer_count := 0, average_dwell_time := 0, service_rate := 0
        trend := 0 }

/-- C5 counterexample: the 4→9-in-one-minute scenario at target 4 yields a
health score of exactly 50 and status `"at-risk"` — the claimed
strictly-below-50 score and `"critical"` status do not occur (the penalties
are 30 for congestion, 12 for the zero service rate and 8 for the rising
trend, leaving 100 − 50 = 50). -/
theorem C5_counterexample :
    runC5 = .ok (svcC5, repC5) ∧
    repC5.health_score = 50 ∧
    repC5.status = "at-risk" ∧
    ¬ (repC5.health_score < 50 ∧ repC5.status = "critical") := by
  refine ⟨by rfl, ?_, ?_, ?_⟩ <;> with_unfolding_all decide

/-- C5 (amended): the scenario yields a health score of exactly 50 (not
below 50) with status `"at-risk"`; as claimed, the alerts include both a
`queue_congestion` and a `queue_growth` entry and a `queue_surge` incident
is appended to the incident history. -/
theorem C5_scenario :
    runC5 = .ok (svcC5, repC5) ∧
    repC5.health_score = 50 ∧
    repC5.status = "at-risk" ∧
    (⟨"queue_congestion", "high"⟩ : QM.QAlert) ∈ repC5.alerts ∧
    (⟨"queue_growth", "medium"⟩ : QM.QAlert) ∈ repC5.alerts ∧
    (⟨"S", "queue_surge", "high"⟩ : QM.Incident) ∈ svcC5.alertHistory := by
  refine ⟨by rfl, ?_, ?_, ?_, ?_, ?_⟩ <;> with_unfolding_all decide

end Sentinel

namespace Sentinel

theorem timeAlignment_nonneg {w : ℚ} {p : PyDateTime} {o : List PyDateTime}
    {a : ℚ} (h : Correlator.timeAlignment w p o = .ok a) : 0 ≤ a := by
  cases o with
  | nil =>
      simp only [Correlator.timeAlignment, Except.ok.injEq] at h
      exact le_of_eq h
  | cons x rest =>
      simp only [Correlator.timeAlignment, Bind.bind, Except.bind] at h
      cases hx : Except.map abs (dtSub p x) with
      | error e => rw [hx] at h; simp at h
      | ok d0 =>
          rw [hx] at h
          cases hm : rest.mapM (fun y => Except.map abs (dtSub p y)) with
          | error e => rw [hm] at h; simp at h
          | ok ds =>
              rw [hm] at h
              simp only [Except.ok.injEq] at h
              exact h ▸ le_max_left 0 _

/-- C1: for every POS event the correlator assesses with a resolvable SKU,
the computed confidence equals
`min(0.35 + 0.35·[rfid match] + 0.22·[vision match] + min(0.08, alignment·0.1), 1)`,
lies in `[0, 1]`, and `_assess_pos_event` emits a correlation record iff the
confidence is at least `0.6` and the dedup key
`(station, sku, second-truncated timestamp)` is unseen. -/
theorem C1_confidence_and_emission
    (window : ℚ) (stationId sku : String) (pos : Correlator.CorrEvent)
    (rfidEvents visionEvents rfidMatches visionMatches : List Correlator.CorrEvent)
    (seenC seenS : List Correlator.SeenKey) (alignment conf : ℚ)
    (corrs : List Correlator.CorrRecord) (susps : List Correlator.SuspRecord)
    (seenC' seenS' : List Correlator.SeenKey)
    (hsku : Correlator.extractSku pos.payload = some sku)
    (hrm : rfidMatches =
      rfidEvents.filter (fun e => decide (Correlator.extractSku e.payload = some sku)))
    (hvm : visionMatches =
      visionEvents.filter (fun e => decide (Correlator.extractSku e.payload = some sku)))
    (halign : Correlator.timeAlignment window pos.timestamp
        ((rfidMatches ++ visionMatches).map Correlator.CorrEvent.timestamp) = .ok alignment)
    (hconf : conf = Correlator.confidenceScore
        (!rfidMatches.isEmpty) (!visionMatches.isEmpty) alignment)
    (hassess : Correlator.assessPosEvent window stationId pos rfidEvents visionEvents
        seenC seenS = .ok (corrs, susps, seenC', seenS')) :
    conf = min (0.35 + 0.35 * (if rfidMatches.isEmpty then 0 else 1)
          + 0.22 * (if visionMatches.isEmpty then 0 else 1)
          + min 0.08 (alignment * 0.1)) 1 ∧
    0 ≤ conf ∧ conf ≤ 1 ∧
    (corrs ≠ [] ↔
      (0.6 : ℚ) ≤ conf ∧ Correlator.seenKey stationId sku pos.timestamp ∉ seenC) := by
  have halignNN : 0 ≤ alignment := timeAlignment_nonneg halign
  have hform : conf = min (0.35 + 0.35 * (if rfidMatches.isEmpty then 0 else 1)
      + 0.22 * (if visionMatches.isEmpty then 0 else 1)
      + min 0.08 (alignment * 0.1)) 1 := by
    rw [hconf, Correlator.confidenceScore]
    cases rfidMatches.isEmpty <;> cases visionMatches.isEmpty <;> norm_num
  have hterm : (0 : ℚ) ≤ min 0.08 (alignment * 0.1) :=
    le_min (by norm_num) (by positivity)
  have hsum : (0 : ℚ) ≤ 0.35 + (if !rfidMatches.isEmpty then (0.35 : ℚ) else 0)
      + (if !visionMatches.isEmpty then (0.22 : ℚ) else 0)
      + min 0.08 (alignment * 0.1) := by
    have h1 : (0 : ℚ) ≤ (if !rfidMatches.isEmpty then (0.35 : ℚ) else 0) := by
      split <;> norm_num
    have h2 : (0 : ℚ) ≤ (if !visionMatches.isEmpty then (0.22 : ℚ) else 0) := by
      split <;> norm_num
    linarith
  have hlo : 0 ≤ conf := by
    rw [hconf, Correlator.confidenceScore]
    exact le_min hsum (by norm_num)
  have hhi : conf ≤ 1 := by
    rw [hconf, Correlator.confidenceScore]
    exact min_le_right _ _
  refine ⟨hform, hlo, hhi, ?_⟩
  rw [Correlator.assessPosEvent] at hassess
  simp only [hsku] at hassess
  rw [← hrm, ← hvm, halign] at hassess
  rcases hbc : Correlator.buildCorrelation stationId sku pos rfidMatches
      visionMatches (Correlator.confidenceScore (!rfidMatches.isEmpty)
        (!visionMatches.isEmpty) alignment) alignment seenC with ⟨corr0, seenC0⟩
  rcases hbs : Correlator.buildSuspicious stationId sku pos rfidMatches
      visionEvents visionMatches (Correlator.confidenceScore (!rfidMatches.isEmpty)
        (!visionMatches.isEmpty) alignment) seenS with ⟨susp0, seenS0⟩
  simp only [Bind.bind, Except.bind, hbc, hbs, Except.ok.injEq] at hassess
  obtain ⟨hcorrs, -, -, -⟩ := hassess
  rw [← hconf, Correlator.buildCorrelation] at hbc
  by_cases hcond : conf < 0.6 ∨
      Correlator.seenKey stationId sku pos.timestamp ∈ seenC
  · rw [if_pos hcond] at hbc
    obtain ⟨hc0, -⟩ := Prod.mk.injEq .. |>.mp hbc
    rw [← hc0]
    simp only [ne_eq, not_true_eq_false, false_iff]
    push_neg
    intro hge
    rcases hcond with hlt | hmem
    · exact absurd hge (not_le.mpr hlt)
    · exact hmem
  · rw [if_neg hcond] at hbc
    obtain ⟨hc0, -⟩ := Prod.mk.injEq .. |>.mp hbc
    rw [← hc0]
    push_neg at hcond
    constructor
    · intro _
      exact hcond
    · intro _
      simp



def posC1 : Correlator.CorrEvent :=
  ⟨"pos_transactions", "SCC1", ⟨false, 10⟩, [("data", .jdict [("sku", .jstr "PRD_A")])]⟩

def rfidC1 : List Correlator.CorrEvent :=
  [⟨"rfid_readings", "SCC1", ⟨false, 8⟩, [("sku", .jstr "PRD_A")]⟩]

def rmC1 : List Correlator.CorrEvent :=
  rfidC1.filter (fun e => decide (Correlator.extractSku e.payload = some "PRD_A"))

def vmC1 : List Correlator.CorrEvent :=
  ([] : List Correlator.CorrEvent).filter
    (fun e => decide (Correlator.extractSku e.payload = some "PRD_A"))

def confC1 : ℚ :=
  Correlator.confidenceScore (!rmC1.isEmpty) (!vmC1.isEmpty) (14/15)

def assessC1 :
    Except PyErr (List Correlator.CorrRecord × List Correlator.SuspRecord ×
      List Correlator.SeenKey × List Correlator.SeenKey) :=
  Correlator.assessPosEvent 30 "SCC1" posC1 rfidC1 [] [] []

def corrsC1 : List Correlator.CorrRecord :=
  match assessC1 with | .ok r => r.1 | .error _ => []

def suspsC1 : List Correlator.SuspRecord :=
  match assessC1 with | .ok r => r.2.1 | .error _ => []

def seenC1c : List Correlator.SeenKey :=
  match assessC1 with | .ok r => r.2.2.1 | .error _ => []

def seenC1s : List Correlator.SeenKey :=
  match assessC1 with | .ok r => r.2.2.2 | .error _ => []

theorem C1_confidence_and_emission_witness :
    Correlator.extractSku posC1.payload = some "PRD_A" ∧
    (corrsC1 ≠ [] ↔ (0.6 : ℚ) ≤ confC1 ∧
      Correlator.seenKey "SCC1" "PRD_A" posC1.timestamp ∉
        ([] : List Correlator.SeenKey)) :=
  ⟨by with_unfolding_all rfl,
   (C1_confidence_and_emission 30 "SCC1" "PRD_A" posC1 rfidC1 [] rmC1 vmC1
      [] [] (14/15) confC1 corrsC1 suspsC1 seenC1c seenC1s
      (by with_unfolding_all rfl) rfl rfl (by with_unfolding_all rfl) rfl
      (by with_unfolding_all rfl)).2.2.2⟩

end Sentinel

namespace Sentinel

/-- C6: for every POS transaction whose measured weight deviates from the
catalog-expected weight by strictly more than `max(8 g, 8 % of expected)`
and whose dedup key `(station, ms-truncated timestamp, sku)` is unseen, the
first ingestion emits exactly one `weight_discrepancy` alert, and
re-ingesting the identical transaction yields zero additional alerts. -/
theorem C6_weight_idempotent
    (catalog : List (String × Weight.CatalogEntry)) (ev : SentinelEvent)
    (st : Weight.State) (d : List (String × JVal)) (s : String) (w expected : ℚ)
    (hds : ev.dataset ∈ posDatasets)
    (hdata : (jget ev.payload "data").getD (.jdict []) = .jdict d)
    (hsku : aget d "sku" = some (.jstr s))
    (hs : s ≠ "")
    (hw : (orElseJ (aget d "weight_g") (aget d "weight")).bind pyCoerceFloat
        = some (.fin w))
    (hcat : (aget catalog s).bind Weight.CatalogEntry.expected_weight_g = some expected)
    (hdiff : max 8 (expected * 0.08) < |w - expected|)
    (hkey : (ev.station_id, Weight.msTrunc ev.timestamp, s) ∉ st) :
    (∃ a : Alert, Weight.detectWeightDiscrepancy catalog ev st
        = .ok ([a], (ev.station_id, Weight.msTrunc ev.timestamp, s) :: st) ∧
      a.type = "weight_discrepancy") ∧
    Weight.detectWeightDiscrepancy catalog ev
        ((ev.station_id, Weight.msTrunc ev.timestamp, s) :: st)
      = .ok ([], (ev.station_id, Weight.msTrunc ev.timestamp, s) :: st) := by
  have hnle : ¬ (|w - expected| ≤ max 8 (expected * 0.08)) := not_le.mpr hdiff
  constructor
  · simp only [Weight.detectWeightDiscrepancy, hds, if_true, hdata, hsku, hw,
      hcat, hs, PyFloat.subQ_fin, PyFloat.absF_fin, PyFloat.leQ_fin,
      decide_eq_true_eq, hnle, hkey, if_false, ite_false, ite_true]
    exact ⟨_, rfl, rfl⟩
  · simp only [Weight.detectWeightDiscrepancy, hds, if_true, hdata, hsku, hw,
      hcat, hs, PyFloat.subQ_fin, PyFloat.absF_fin, PyFloat.leQ_fin,
      decide_eq_true_eq, hnle, List.mem_cons, true_or, if_true, ite_false,
      ite_true]

end Sentinel

namespace Sentinel

def catC6 : List (String × Weight.CatalogEntry) :=
  [("P1", ⟨some "Prod One", some 100, some 5⟩)]

def evC6 : SentinelEvent :=
  { dataset := "POS_Transactions", timestamp := 50, station_id := some "SCC2"
    payload := [("data", .jdict [("sku", .jstr "P1"), ("weight_g", .jfloat 120)])] }

theorem C6_weight_idempotent_witness :
    max (8 : ℚ) (100 * 0.08) < |(120 : ℚ) - 100| ∧
    Weight.detectWeightDiscrepancy catC6 evC6
        [(evC6.station_id, Weight.msTrunc evC6.timestamp, "P1")]
      = .ok ([], [(evC6.station_id, Weight.msTrunc evC6.timestamp, "P1")]) :=
  ⟨by with_unfolding_all decide,
   (C6_weight_idempotent catC6 evC6 []
      [("sku", .jstr "P1"), ("weight_g", .jfloat 120)] "P1" (120 : ℚ) 100
      (by decide) (by with_unfolding_all rfl) (by with_unfolding_all rfl)
      (by decide) (by with_unfolding_all rfl) (by with_unfolding_all rfl)
      (by with_unfolding_all decide) (by decide)).2⟩

end Sentinel

namespace Sentinel

def expC7 : List (String × ℤ) := [("S1", 104)]

def evC7 : SentinelEvent :=
  { dataset := "inventory_snapshots", timestamp := 0, station_id := some "DC1"
    payload := [("data", .jdict [("S1", .jint 116)])] }

def alertsC7 : List Alert :=
  match Inventory.detectInventoryDiscrepancy expC7 evC7 [] with
  | .ok r => r.1
  | .error _ => []

/-- C7 counterexample: with a cached expected quantity of 104 and an
observed quantity of 116 the detector emits an alert (the code's threshold
is `max(8, int(104·0.12)) = max(8, 12) = 12 ≤ |116−104|`), yet the claimed
real-valued threshold `max(8, 104·0.12) = 12.48` is NOT reached by the
deviation 12 — the claimed "exactly when |observed−expected| ≥ max(8, 12 %
of expected)" is false because `int()` truncates the 12 % bound. -/
theorem C7_counterexample :
    alertsC7.map Alert.type = ["inventory_discrepancy"] ∧
    ¬ (max (8 : ℚ) ((104 : ℚ) * 0.12) ≤ |(116 : ℚ) - 104|) := by
  constructor
  · with_unfolding_all decide
  · with_unfolding_all decide

end Sentinel

namespace Sentinel.Inventory

/-- Processing an entry whose key differs from `s` neither adds an alert
recording SKU `s` nor changes the cooldown entry of `s`. -/
lemma considerSku_other (expected : List (String × ℤ)) (now : ℚ)
    (stationId : Option String) (s : String) (alerts : List Alert)
    (st : State) (k : String) (v : JVal) (hk : k ≠ s) :
    (considerSku expected now stationId (alerts, st) (k, v)).1.countP
        (fun a => decide (skuOfAlert a = some s))
      = alerts.countP (fun a => decide (skuOfAlert a = some s)) ∧
    aget (considerSku expected now stationId (alerts, st) (k, v)).2 s
      = aget st s := by
  unfold considerSku
  dsimp only
  cases hint : pyIntE v with
  | error e => exact ⟨rfl, rfl⟩
  | ok observed =>
      cases hexp : aget expected k with
      | none => exact ⟨rfl, rfl⟩
      | some exp =>
          dsimp only
          split
          · exact ⟨rfl, rfl⟩
          · split
            · exact ⟨rfl, rfl⟩
            · constructor
              · rw [List.countP_append]
                simp [skuOfAlert, hk]
              · exact aget_aset_ne st k s now hk

/-- Folding over entries none of which is keyed `s` leaves the count of
`s`-alerts unchanged. -/
lemma foldl_no_key (expected : List (String × ℤ)) (now : ℚ)
    (stationId : Option String) (s : String) :
    ∀ (l : List (String × JVal)) (acc : List Alert × State),
      s ∉ l.map Prod.fst →
      (l.foldl (considerSku expected now stationId) acc).1.countP
          (fun a => decide (skuOfAlert a = some s))
        = acc.1.countP (fun a => decide (skuOfAlert a = some s))
  | [], _, _ => rfl
  | (k, v) :: rest, acc, hnot => by
      have hk : k ≠ s := fun hc => hnot (by simp [hc])
      rcases acc with ⟨alerts, st⟩
      obtain ⟨hcount, -⟩ :=
        considerSku_other expected now stationId s alerts st k v hk
      rw [List.foldl_cons,
        foldl_no_key expected now stationId s rest _
          (fun hc => hnot (by simp [hc]))]
      exact hcount

/-- Processing the entry keyed `s` itself adds one `s`-alert exactly when
the truncated threshold is reached and the cooldown is clear. -/
lemma considerSku_self (expected : List (String × ℤ)) (now : ℚ)
    (stationId : Option String) (s : String) (v : JVal) (q e : ℤ)
    (hv : pyIntE v = .ok q) (he : aget expected s = some e)
    (alerts : List Alert) (st : State) :
    (considerSku expected now stationId (alerts, st) (s, v)).1.countP
        (fun a => decide (skuOfAlert a = some s))
      = alerts.countP (fun a => decide (skuOfAlert a = some s))
        + (if max 8 (pyTrunc ((e : ℚ) * 0.12)) ≤ |q - e|
              ∧ invBlocked st s now = false
           then 1 else 0) := by
  unfold considerSku
  dsimp only
  rw [hv, he]
  dsimp only
  by_cases hthr : |q - e| < max 8 (pyTrunc ((e : ℚ) * 0.12))
  · rw [if_pos hthr, if_neg (by
      rintro ⟨h1, -⟩
      exact absurd h1 (not_le.mpr hthr))]
    simp
  · rw [if_neg hthr]
    cases hb : invBlocked st s now with
    | true => simp
    | false =>
        rw [if_neg Bool.false_ne_true,
          if_pos ⟨not_lt.mp hthr, rfl⟩, List.countP_append]
        simp [skuOfAlert]

lemma invBlocked_congr {st1 st2 : State} {s : String} {now : ℚ}
    (h : aget st1 s = aget st2 s) :
    invBlocked st1 s now = invBlocked st2 s now := by
  unfold invBlocked
  rw [h]

/-- Per-SKU characterisation of the whole fold: with distinct snapshot
keys (Python dict keys are unique), the number of alerts recording SKU `s`
produced by the loop is one exactly when the truncated 12 % threshold is
reached and the 10-minute cooldown of `s` is clear, and zero otherwise. -/
lemma considerSku_fold (expected : List (String × ℤ)) (now : ℚ)
    (stationId : Option String) (s : String) (e : ℤ)
    (he : aget expected s = some e) :
    ∀ (l : List (String × JVal)) (acc : List Alert × State) (v : JVal) (q : ℤ),
      (l.map Prod.fst).Nodup → (s, v) ∈ l → pyIntE v = .ok q →
      (l.foldl (considerSku expected now stationId) acc).1.countP
          (fun a => decide (skuOfAlert a = some s))
        = acc.1.countP (fun a => decide (skuOfAlert a = some s))
          + (if max 8 (pyTrunc ((e : ℚ) * 0.12)) ≤ |q - e|
               ∧ invBlocked acc.2 s now = false
             then 1 else 0)
  | [], _, v, q, _, hmem, _ => absurd hmem (List.not_mem_nil _)
  | (k, v') :: rest, acc, v, q, hnd, hmem, hq => by
      rcases acc with ⟨alerts, st⟩
      have hnd' : k ∉ rest.map Prod.fst ∧ (rest.map Prod.fst).Nodup := by
        rw [List.map_cons, List.nodup_cons] at hnd
        exact hnd
      rcases List.mem_cons.mp hmem with heq | hmemr
      · obtain ⟨hs, hv⟩ := Prod.mk.injEq .. |>.mp heq
        subst hs
        subst hv
        rw [List.foldl_cons,
          foldl_no_key expected now stationId s rest _ hnd'.1]
        exact considerSku_self expected now stationId s v q e hq he alerts st
      · have hs_in : s ∈ rest.map Prod.fst :=
          List.mem_map.mpr ⟨(s, v), hmemr, rfl⟩
        have hk : k ≠ s := fun hc => hnd'.1 (hc ▸ hs_in)
        obtain ⟨hcount, hst⟩ :=
          considerSku_other expected now stationId s alerts st k v' hk
        rw [List.foldl_cons,
          considerSku_fold expected now stationId s e he rest _ v q
            hnd'.2 hmemr hq,
          hcount, invBlocked_congr hst]

end Sentinel.Inventory

namespace Sentinel

/-- C7 (amended): for every SKU of an ingested inventory snapshot (keys
are distinct, as in any Python dict) with a coercible observed quantity
and a cached expected quantity, the detector emits exactly one alert for
that SKU when `|observed − expected| ≥ max(8, int(0.12·expected))` — the
12 % bound truncated toward zero, as Python's `int()` does — and the
10-minute per-SKU cooldown is clear, and no alert for it otherwise. -/
theorem C7_inventory_threshold
    (expected : List (String × ℤ)) (ev : SentinelEvent) (st : Inventory.State)
    (observed : List (String × JVal)) (s : String) (v : JVal) (q e : ℤ)
    (alerts : List Alert) (st' : Inventory.State)
    (hds : ev.dataset ∈ Inventory.inventoryDatasets)
    (hdata : jget ev.payload "data" = some (.jdict observed))
    (hnd : (observed.map Prod.fst).Nodup)
    (hmem : (s, v) ∈ observed)
    (hv : pyIntE v = .ok q)
    (he : aget expected s = some e)
    (hrun : Inventory.detectInventoryDiscrepancy expected ev st
        = .ok (alerts, st')) :
    alerts.countP (fun a => decide (Inventory.skuOfAlert a = some s))
      = if max 8 (pyTrunc ((e : ℚ) * 0.12)) ≤ |q - e|
           ∧ Inventory.invBlocked st s ev.timestamp = false
        then 1 else 0 := by
  simp only [Inventory.detectInventoryDiscrepancy, hds, if_true, hdata] at hrun
  injection hrun with hpair
  have h1 : alerts = (observed.foldl
      (Inventory.considerSku expected ev.timestamp ev.station_id)
      ([], st)).1 := by
    rw [hpair]
  rw [h1]
  have hmain := Inventory.considerSku_fold expected ev.timestamp ev.station_id
    s e he observed ([], st) v q hnd hmem hv
  simpa using hmain

end Sentinel

namespace Sentinel

def expC7w : List (String × ℤ) := [("S2", 100), ("S3", 7)]

def evC7w : SentinelEvent :=
  { dataset := "inventory_snapshots", timestamp := 0, station_id := some "DC1"
    payload := [("data", .jdict [("S2", .jint 120), ("S3", .jint 6)])] }

def runC7w : Except PyErr (List Alert × Inventory.State) :=
  Inventory.detectInventoryDiscrepancy expC7w evC7w []

def alertsC7w : List Alert :=
  match runC7w with | .ok r => r.1 | .error _ => []

def stC7w : Inventory.State :=
  match runC7w with | .ok r => r.2 | .error _ => []

theorem C7_inventory_threshold_witness :
    evC7w.dataset ∈ Inventory.inventoryDatasets ∧
    ([("S2", JVal.jint 120), ("S3", JVal.jint 6)].map Prod.fst).Nodup ∧
    alertsC7w.countP (fun a => decide (Inventory.skuOfAlert a = some "S2"))
      = if max 8 (pyTrunc ((100 : ℚ) * 0.12)) ≤ |(120 : ℤ) - 100|
           ∧ Inventory.invBlocked [] "S2" evC7w.timestamp = false
        then 1 else 0 :=
  ⟨by decide, by decide,
   C7_inventory_threshold expC7w evC7w []
     [("S2", .jint 120), ("S3", .jint 6)] "S2" (.jint 120) 120 100
     alertsC7w stC7w
     (by decide) (by with_unfolding_all rfl) (by decide)
     (List.mem_cons_self _ _) (by with_unfolding_all rfl)
     (by with_unfolding_all rfl) (by with_unfolding_all rfl)⟩

end Sentinel

namespace Sentinel

theorem shouldEmit_of_forall {st : Scanner.State} {epc : String} {now : ℚ}
    (h : ∀ t, aget st.cooldown epc = some t → 30 < now - t) :
    Scanner.shouldEmitAlert st epc now = true := by
  unfold Scanner.shouldEmitAlert
  cases hc : aget st.cooldown epc with
  | none => rfl
  | some t => simpa using h t hc

theorem scannerEmit_maps (station : String) (now : ℚ) (epc : String)
    (obs : Scanner.RFIDObservation) (lastScan : Option ℚ) (st : Scanner.State)
    (hse : Scanner.shouldEmitAlert st epc now = true) :
    (Scanner.scannerEmit station now epc obs lastScan st).1.map Alert.type
      = ["scanner_avoidance"] ∧
    (Scanner.scannerEmit station now epc obs lastScan st).1.map Alert.confidence
      = [.fin (if obs.location ∈ (["CUSTOMER_EXIT", "OUT_OF_STORE"] : List String)
               then 0.9 else 0.75)] := by
  unfold Scanner.scannerEmit
  rw [hse]
  simp

/-- The state and alerts of the scanner-avoidance run on the claim's
concrete example: an RFID read `{epc: EPC123, sku: PRD_X_01,
location: OUT_OF_STORE}` against a fresh detector state. -/
def evC8ex : SentinelEvent :=
  { dataset := "RFID_data", timestamp := 0, station_id := some "SCC1"
    payload := [("data", .jdict
      [("epc", .jstr "EPC123"), ("sku", .jstr "PRD_X_01"),
       ("location", .jstr "OUT_OF_STORE")])] }

/-- An RFID read at the exit gate with no corroborating scan. -/
def evC8gate : SentinelEvent :=
  { dataset := "RFID_data", timestamp := 0, station_id := some "SCC1"
    payload := [("data", .jdict
      [("epc", .jstr "E77"), ("sku", .jstr "PRD_Y_02"),
       ("location", .jstr "EXIT_GATE")])] }

def alertsC8gate : List Alert :=
  match Scanner.detectScannerAvoidance evC8gate ⟨[], [], []⟩ with
  | .ok r => r.1
  | .error _ => []

/-- C8 counterexample: an uncorroborated RFID read at `EXIT_GATE` — an exit
location in the suspicious set — produces one `scanner_avoidance` alert
with confidence `0.75`, not the `0.9` the claim assigns to exit locations:
the code only raises the confidence for `CUSTOMER_EXIT` and
`OUT_OF_STORE`. -/
theorem C8_counterexample :
    "EXIT_GATE" ∈ Scanner.suspiciousLocations ∧
    alertsC8gate.map Alert.type = ["scanner_avoidance"] ∧
    alertsC8gate.map Alert.confidence = [.fin 0.75] ∧
    (0.75 : ℚ) ≠ 0.9 := by
  refine ⟨by decide, by with_unfolding_all decide, ?_, ?_⟩ <;>
    with_unfolding_all decide

/-- C8 (amended): an uncorroborated RFID read at a suspicious location,
with the per-EPC cooldown clear, yields exactly one `scanner_avoidance`
alert whose confidence is `0.9` when the (upper-cased) location is
`CUSTOMER_EXIT` or `OUT_OF_STORE` and `0.75` otherwise (including the
`EXIT_GATE`/`EXIT_LANE` exit locations); in particular the claim's concrete
`OUT_OF_STORE` example yields one alert with confidence `0.9`. -/
theorem C8_scanner_confidence
    (ev : SentinelEvent) (st : Scanner.State) (d : List (String × JVal))
    (epc loc : String) (skuOpt : Option String)
    (hnpos : ev.dataset ∉ posDatasets)
    (hds : ev.dataset ∈ Scanner.rfidDatasets)
    (hdata : (jget ev.payload "data").getD (.jdict []) = .jdict d)
    (hepc : aget d "epc" = some (.jstr epc))
    (hloc : aget d "location" = some (.jstr loc))
    (hskuv : (match aget d "sku" with
              | some (.jstr s) => some s
              | _ => none) = skuOpt)
    (hsusp : loc.toUpper ∈ Scanner.suspiciousLocations)
    (hnc : ∀ k, skuOpt = some k → k ≠ "" →
       ∀ t, aget (Scanner.expireOld ev.timestamp st).recentPos k = some t →
         25 < ev.timestamp - t)
    (hcool : ∀ t, aget (Scanner.expireOld ev.timestamp st).cooldown epc = some t →
       30 < ev.timestamp - t) :
    ((Scanner.detectScannerAvoidance ev st).map (fun r => r.1.map Alert.type)
        = .ok ["scanner_avoidance"] ∧
     (Scanner.detectScannerAvoidance ev st).map (fun r => r.1.map Alert.confidence)
        = .ok [.fin (if loc.toUpper ∈ (["CUSTOMER_EXIT", "OUT_OF_STORE"] : List String)
                     then 0.9 else 0.75)]) ∧
    (Scanner.detectScannerAvoidance evC8ex ⟨[], [], []⟩).map
        (fun r => r.1.map Alert.confidence) = .ok [.fin 0.9] := by
  have key : ∃ ls, Scanner.detectScannerAvoidance ev st =
      .ok (Scanner.scannerEmit (stationOr ev) ev.timestamp epc
        ⟨skuOpt, loc.toUpper, ev.timestamp⟩ ls
        { Scanner.expireOld ev.timestamp st with
          recentRfid := aset (Scanner.expireOld ev.timestamp st).recentRfid epc
            ⟨skuOpt, loc.toUpper, ev.timestamp⟩ }) := by
    simp only [Scanner.detectScannerAvoidance, hnpos, if_false, hds, if_true,
      hdata, hepc, hloc, hskuv, hsusp, ite_true, ite_false]
    cases skuOpt with
    | none => exact ⟨none, rfl⟩
    | some k =>
        by_cases hk : k = ""
        · simp only [hk, ite_true, if_true]
          exact ⟨none, rfl⟩
        · simp only [hk, ite_false, if_false]
          cases hps : aget (Scanner.expireOld ev.timestamp st).recentPos k with
          | none => exact ⟨none, by simp [hps]⟩
          | some t =>
              have hnle : ¬ (ev.timestamp - t ≤ 25) :=
                not_le.mpr (hnc k rfl hk t hps)
              exact ⟨some t, by simp [hps, hnle]⟩
  obtain ⟨ls, hrun⟩ := key
  have hse : Scanner.shouldEmitAlert
      { Scanner.expireOld ev.timestamp st with
        recentRfid := aset (Scanner.expireOld ev.timestamp st).recentRfid epc
          ⟨skuOpt, loc.toUpper, ev.timestamp⟩ } epc ev.timestamp = true :=
    shouldEmit_of_forall hcool
  obtain ⟨hmt, hmc⟩ := scannerEmit_maps (stationOr ev) ev.timestamp epc
    ⟨skuOpt, loc.toUpper, ev.timestamp⟩ ls
    { Scanner.expireOld ev.timestamp st with
      recentRfid := aset (Scanner.expireOld ev.timestamp st).recentRfid epc
        ⟨skuOpt, loc.toUpper, ev.timestamp⟩ } hse
  refine ⟨⟨?_, ?_⟩, ?_⟩
  · rw [hrun, Except.map, hmt]
  · rw [hrun, Except.map, hmc]
  · with_unfolding_all rfl

end Sentinel

namespace Sentinel

theorem C8_scanner_confidence_witness :
    "OUT_OF_STORE".toUpper ∈ Scanner.suspiciousLocations ∧
    (Scanner.detectScannerAvoidance evC8ex ⟨[], [], []⟩).map
        (fun r => r.1.map Alert.confidence)
      = .ok [.fin (if "OUT_OF_STORE".toUpper ∈
                     (["CUSTOMER_EXIT", "OUT_OF_STORE"] : List String)
                   then 0.9 else 0.75)] :=
  ⟨by with_unfolding_all decide,
   (C8_scanner_confidence evC8ex ⟨[], [], []⟩
      [("epc", .jstr "EPC123"), ("sku", .jstr "PRD_X_01"),
       ("location", .jstr "OUT_OF_STORE")]
      "EPC123" "OUT_OF_STORE" (some "PRD_X_01")
      (by decide) (by decide) (by with_unfolding_all rfl)
      (by with_unfolding_all rfl) (by with_unfolding_all rfl)
      (by with_unfolding_all rfl) (by with_unfolding_all decide)
      (by intro k hk hkne t ht; simp [Scanner.expireOld, aget] at ht)
      (by intro t ht; simp [Scanner.expireOld, aget] at ht)).1.2⟩

end Sentinel

namespace Sentinel

theorem scannerEmit_len (station : String) (now : ℚ) (epc : String)
    (obs : Scanner.RFIDObservation) (ls : Option ℚ) (st : Scanner.State) :
    (Scanner.scannerEmit station now epc obs ls st).1.length ≤ 1 := by
  unfold Scanner.scannerEmit
  split <;> simp

theorem scannerEmit_of_blocked (station : String) (now : ℚ) (epc : String)
    (obs : Scanner.RFIDObservation) (ls : Option ℚ) (st : Scanner.State)
    (h : Scanner.shouldEmitAlert st epc now = false) :
    Scanner.scannerEmit station now epc obs ls st = ([], st) := by
  unfold Scanner.scannerEmit
  rw [h]
  simp

theorem scannerEmit_emit_inv (station : String) (now : ℚ) (epc : String)
    (obs : Scanner.RFIDObservation) (ls : Option ℚ) (st : Scanner.State)
    (hne : (Scanner.scannerEmit station now epc obs ls st).1 ≠ []) :
    (Scanner.scannerEmit station now epc obs ls st).1.length = 1 ∧
    (Scanner.scannerEmit station now epc obs ls st).2.cooldown
      = aset st.cooldown epc now := by
  by_cases hse : Scanner.shouldEmitAlert st epc now = true
  · unfold Scanner.scannerEmit
    rw [if_pos hse]
    exact ⟨rfl, rfl⟩
  · have hf : Scanner.shouldEmitAlert st epc now = false := by
      revert hse
      cases Scanner.shouldEmitAlert st epc now <;> simp
    rw [scannerEmit_of_blocked station now epc obs ls st hf] at hne
    exact absurd rfl hne

theorem shouldEmit_false_of (st : Scanner.State) (epc : String) (now t : ℚ)
    (hget : aget st.cooldown epc = some t) (hle : ¬ (30 < now - t)) :
    Scanner.shouldEmitAlert st epc now = false := by
  unfold Scanner.shouldEmitAlert
  rw [hget]
  simpa using hle

/-- A qualifying RFID read (suspicious location, no corroborating recent POS
scan) always reaches the cooldown gate: the run equals `scannerEmit` on the
expired-and-updated state. -/
theorem scanner_qualified_run
    (ev : SentinelEvent) (st : Scanner.State) (d : List (String × JVal))
    (epc loc : String) (skuOpt : Option String)
    (hnpos : ev.dataset ∉ posDatasets)
    (hds : ev.dataset ∈ Scanner.rfidDatasets)
    (hdata : (jget ev.payload "data").getD (.jdict []) = .jdict d)
    (hepc : aget d "epc" = some (.jstr epc))
    (hloc : aget d "location" = some (.jstr loc))
    (hskuv : (match aget d "sku" with
              | some (.jstr s) => some s
              | _ => none) = skuOpt)
    (hsusp : loc.toUpper ∈ Scanner.suspiciousLocations)
    (hnc : ∀ k, skuOpt = some k → k ≠ "" →
       ∀ t, aget (Scanner.expireOld ev.timestamp st).recentPos k = some t →
         25 < ev.timestamp - t) :
    ∃ ls, Scanner.detectScannerAvoidance ev st =
      .ok (Scanner.scannerEmit (stationOr ev) ev.timestamp epc
        ⟨skuOpt, loc.toUpper, ev.timestamp⟩ ls
        { Scanner.expireOld ev.timestamp st with
          recentRfid := aset (Scanner.expireOld ev.timestamp st).recentRfid epc
            ⟨skuOpt, loc.toUpper, ev.timestamp⟩ }) := by
  simp only [Scanner.detectScannerAvoidance, hnpos, if_false, hds, if_true,
    hdata, hepc, hloc, hskuv, hsusp, ite_true, ite_false]
  cases skuOpt with
  | none => exact ⟨none, rfl⟩
  | some k =>
      by_cases hk : k = ""
      · simp only [hk, ite_true, if_true]
        exact ⟨none, rfl⟩
      · simp only [hk, ite_false, if_false]
        cases hps : aget (Scanner.expireOld ev.timestamp st).recentPos k with
        | none => exact ⟨none, by simp [hps]⟩
        | some t =>
            have hnle : ¬ (ev.timestamp - t ≤ 25) :=
              not_le.mpr (hnc k rfl hk t hps)
            exact ⟨some t, by simp [hps, hnle]⟩

end Sentinel

namespace Sentinel

theorem okPair_inj {ε α β : Type} {a c : α} {b d : β}
    (h : (Except.ok (a, b) : Except ε (α × β)) = .ok (c, d)) : a = c ∧ b = d := by
  injection h with h'
  exact ⟨congrArg Prod.fst h', congrArg Prod.snd h'⟩

theorem system_len {ev : SentinelEvent} {st : SystemHealth.State}
    {as : List Alert} {st' : SystemHealth.State}
    (h : SystemHealth.detectSystemHealth ev st = .ok (as, st')) :
    as.length ≤ 1 := by
  simp only [SystemHealth.detectSystemHealth] at h
  split at h
  · obtain ⟨ha, -⟩ := okPair_inj h
    rw [← ha]
    simp
  · split at h
    · obtain ⟨ha, -⟩ := okPair_inj h
      rw [← ha]
      simp
    · split at h
      · split at h
        · obtain ⟨ha, -⟩ := okPair_inj h
          rw [← ha]
          simp
        · obtain ⟨ha, -⟩ := okPair_inj h
          rw [← ha]
          simp
      · obtain ⟨ha, -⟩ := okPair_inj h
        rw [← ha]
        simp

theorem system_alert_inv {ev : SentinelEvent} {st : SystemHealth.State}
    {a : Alert} {rest : List Alert} {st' : SystemHealth.State}
    (h : SystemHealth.detectSystemHealth ev st = .ok (a :: rest, st')) :
    rest = [] ∧
    st' = aset st (ev.dataset, ev.station_id) ⟨some ev.timestamp, false⟩ := by
  simp only [SystemHealth.detectSystemHealth] at h
  split at h
  · obtain ⟨ha, -⟩ := okPair_inj h
    exact absurd ha (by simp)
  · split at h
    · obtain ⟨ha, -⟩ := okPair_inj h
      exact absurd ha (by simp)
    · split at h
      · split at h
        · obtain ⟨ha, -⟩ := okPair_inj h
          exact absurd ha (by simp)
        · obtain ⟨ha, hst⟩ := okPair_inj h
          have : rest = [] := by
            have := congrArg List.tail ha
            simpa using this.symm
          exact ⟨this, hst.symm⟩
      · obtain ⟨ha, hst⟩ := okPair_inj h
        have : rest = [] := by
          have := congrArg List.tail ha
          simpa using this.symm
        exact ⟨this, hst.symm⟩

theorem system_suppressed {ev : SentinelEvent} {st : SystemHealth.State}
    {as : List Alert} {st' : SystemHealth.State} {hs : SystemHealth.HealthState}
    {la : ℚ}
    (hget : aget st (ev.dataset, ev.station_id) = some hs)
    (hla : hs.last_alert = some la)
    (hclose : ev.timestamp - la < 180)
    (h : SystemHealth.detectSystemHealth ev st = .ok (as, st')) :
    as = [] := by
  simp only [SystemHealth.detectSystemHealth, hget, Option.getD_some, hla,
    if_pos hclose] at h
  split at h
  · obtain ⟨ha, -⟩ := okPair_inj h
    exact ha.symm
  · split at h
    · obtain ⟨ha, -⟩ := okPair_inj h
      exact ha.symm
    · obtain ⟨ha, -⟩ := okPair_inj h
      exact ha.symm

end Sentinel

namespace Sentinel

theorem pql_keeps {st : QueueDet.State} {station : String} {now : ℚ} {q : ℤ}
    {as : List Alert} {st' : QueueDet.State}
    (h : QueueDet.processQueueLength st station now q = (as, st')) :
    (∀ a ∈ as, a.type = "queue_spike") ∧ as.length ≤ 1 ∧
    ((as = [] ∧ st'.lastAlertQueue = st.lastAlertQueue) ∨
     st'.lastAlertQueue = aset st.lastAlertQueue station now) := by
  simp only [QueueDet.processQueueLength] at h
  split at h
  · obtain ⟨ha, hst⟩ := Prod.mk.injEq .. |>.mp h
    refine ⟨?_, ?_, Or.inl ⟨ha.symm, ?_⟩⟩ <;> simp [← ha, ← hst]
  · split at h
    · obtain ⟨ha, hst⟩ := Prod.mk.injEq .. |>.mp h
      refine ⟨?_, ?_, Or.inl ⟨ha.symm, ?_⟩⟩ <;> simp [← ha, ← hst]
    · obtain ⟨ha, hst⟩ := Prod.mk.injEq .. |>.mp h
      refine ⟨?_, ?_, Or.inr ?_⟩ <;> simp [← ha, ← hst]

theorem pql_suppressed {st : QueueDet.State} {station : String} {now : ℚ}
    {q : ℤ} {t : ℚ} {as : List Alert} {st' : QueueDet.State}
    (hget : aget st.lastAlertQueue station = some t) (hlt : now - t < 120)
    (h : QueueDet.processQueueLength st station now q = (as, st')) :
    as = [] := by
  simp only [QueueDet.processQueueLength, hget] at h
  split at h
  · exact (Prod.mk.injEq .. |>.mp h).1.symm
  · rw [if_pos (by simpa using hlt)] at h
    exact (Prod.mk.injEq .. |>.mp h).1.symm

theorem pwt_keeps {st : QueueDet.State} {station : String} {now : ℚ}
    {w : PyFloat} {as : List Alert} {st' : QueueDet.State}
    (h : QueueDet.processWaitTime st station now w = (as, st')) :
    st'.lastAlertQueue = st.lastAlertQueue ∧
    ∀ a ∈ as, a.type = "extended_wait" := by
  simp only [QueueDet.processWaitTime] at h
  split at h
  · obtain ⟨ha, hst⟩ := Prod.mk.injEq .. |>.mp h
    constructor <;> simp [← ha, ← hst]
  · split at h
    · obtain ⟨ha, hst⟩ := Prod.mk.injEq .. |>.mp h
      constructor <;> simp [← ha, ← hst]
    · split at h
      · obtain ⟨ha, hst⟩ := Prod.mk.injEq .. |>.mp h
        constructor <;> simp [← ha, ← hst]
      · obtain ⟨ha, hst⟩ := Prod.mk.injEq .. |>.mp h
        constructor <;> simp [← ha, ← hst]

theorem filter_spike_of_wait (l : List Alert)
    (h : ∀ a ∈ l, a.type = "extended_wait") :
    l.filter (fun a => a.type == "queue_spike") = [] := by
  rw [List.filter_eq_nil_iff]
  intro a ha
  simp [h a ha]

theorem filter_spike_of_spike (l : List Alert)
    (h : ∀ a ∈ l, a.type = "queue_spike") :
    l.filter (fun a => a.type == "queue_spike") = l := by
  rw [List.filter_eq_self]
  intro a ha
  simp [h a ha]

end Sentinel

namespace Sentinel

theorem queue_combo {st : QueueDet.State} (st1 : QueueDet.State)
    {st2 : QueueDet.State} {a1 a2 : List Alert}
    {station : String} {now : ℚ}
    (h1type : ∀ a ∈ a1, a.type = "queue_spike")
    (h1len : a1.length ≤ 1)
    (h1st : (a1 = [] ∧ st1.lastAlertQueue = st.lastAlertQueue) ∨
            st1.lastAlertQueue = aset st.lastAlertQueue station now)
    (h1sup : ∀ t, aget st.lastAlertQueue station = some t → now - t < 120 →
       a1 = [])
    (h2st : st2.lastAlertQueue = st1.lastAlertQueue)
    (h2type : ∀ a ∈ a2, a.type = "extended_wait") :
    ((a1 ++ a2).filter (fun a => a.type == "queue_spike")).length ≤ 1 ∧
    (((a1 ++ a2).filter (fun a => a.type == "queue_spike")) ≠ [] →
       st2.lastAlertQueue = aset st.lastAlertQueue station now) ∧
    (∀ t, aget st.lastAlertQueue station = some t → now - t < 120 →
       (a1 ++ a2).filter (fun a => a.type == "queue_spike") = []) := by
  have hf : (a1 ++ a2).filter (fun a => a.type == "queue_spike") = a1 := by
    rw [List.filter_append, filter_spike_of_spike a1 h1type,
        filter_spike_of_wait a2 h2type, List.append_nil]
  rw [hf]
  refine ⟨h1len, ?_, h1sup⟩
  intro hne
  rcases h1st with ⟨he, -⟩ | hr
  · exact absurd he hne
  · rw [h2st, hr]

theorem queue_spikes_facts {ev : SentinelEvent} {st : QueueDet.State}
    {as : List Alert} {st' : QueueDet.State}
    (h : QueueDet.detectQueueHealth ev st = .ok (as, st')) :
    (as.filter (fun a => a.type == "queue_spike")).length ≤ 1 ∧
    ((as.filter (fun a => a.type == "queue_spike")) ≠ [] →
       st'.lastAlertQueue
         = aset st.lastAlertQueue (stationOr ev) ev.timestamp) ∧
    (∀ t, aget st.lastAlertQueue (stationOr ev) = some t →
       ev.timestamp - t < 120 →
       as.filter (fun a => a.type == "queue_spike") = []) := by
  simp only [QueueDet.detectQueueHealth] at h
  split at h
  · split at h
    · rename_i d heq
      cases hqlE : pyCoerceInt ((aget d "customer_count").getD .jnull) with
      | error e =>
          simp only [hqlE, Bind.bind, Except.bind] at h
          exact absurd h (by simp)
      | ok oq =>
      simp only [hqlE, Bind.bind, Except.bind] at h
      cases oq with
      | none =>
          dsimp only at h
          cases hdw : pyCoerceFloat ((aget d "average_dwell_time").getD .jnull) with
          | none =>
              simp only [hdw] at h
              obtain ⟨ha, hst⟩ := okPair_inj h
              rw [← ha, ← hst]
              exact queue_combo st (fun a ha => by simp at ha)
                (by simp) (Or.inl ⟨rfl, rfl⟩) (fun _ _ _ => rfl) rfl
                (fun a ha => by simp at ha)
          | some w =>
              simp only [hdw] at h
              rcases hp2 : QueueDet.processWaitTime st (stationOr ev)
                  ev.timestamp w with ⟨a2, st2⟩
              rw [hp2] at h
              obtain ⟨ha, hst⟩ := okPair_inj h
              rw [← ha, ← hst]
              obtain ⟨h2st, h2t⟩ := pwt_keeps hp2
              exact queue_combo st (fun a ha => by simp at ha)
                (by simp) (Or.inl ⟨rfl, rfl⟩) (fun _ _ _ => rfl) h2st h2t
      | some q =>
          dsimp only at h
          rcases hp1 : QueueDet.processQueueLength st (stationOr ev)
              ev.timestamp q with ⟨a1, st1⟩
          rw [hp1] at h
          obtain ⟨h1t, h1len, h1st⟩ := pql_keeps hp1
          cases hdw : pyCoerceFloat ((aget d "average_dwell_time").getD .jnull) with
          | none =>
              simp only [hdw] at h
              obtain ⟨ha, hst⟩ := okPair_inj h
              rw [← ha, ← hst]
              exact queue_combo st1 h1t h1len h1st
                (fun t hg hl => pql_suppressed hg hl hp1) rfl
                (fun a ha => by simp at ha)
          | some w =>
              simp only [hdw] at h
              rcases hp2 : QueueDet.processWaitTime st1 (stationOr ev)
                  ev.timestamp w with ⟨a2, st2⟩
              rw [hp2] at h
              obtain ⟨ha, hst⟩ := okPair_inj h
              rw [← ha, ← hst]
              obtain ⟨h2st, h2t⟩ := pwt_keeps hp2
              exact queue_combo st1 h1t h1len h1st
                (fun t hg hl => pql_suppressed hg hl hp1) h2st h2t
    · exact absurd h (by simp)
  · obtain ⟨ha, hst⟩ := okPair_inj h
    rw [← ha, ← hst]
    refine ⟨by simp, ?_, fun _ _ _ => by simp⟩
    intro hne
    simp at hne

end Sentinel

namespace Sentinel

theorem pwt_keeps2 {st : QueueDet.State} {station : String} {now : ℚ}
    {w : PyFloat} {as : List Alert} {st' : QueueDet.State}
    (h : QueueDet.processWaitTime st station now w = (as, st')) :
    as.length ≤ 1 ∧
    ((as = [] ∧ st'.lastAlertWait = st.lastAlertWait) ∨
     st'.lastAlertWait = aset st.lastAlertWait station now) := by
  simp only [QueueDet.processWaitTime] at h
  split at h
  · obtain ⟨ha, hst⟩ := Prod.mk.injEq .. |>.mp h
    refine ⟨?_, Or.inl ⟨ha.symm, ?_⟩⟩ <;> simp [← ha, ← hst]
  · split at h
    · obtain ⟨ha, hst⟩ := Prod.mk.injEq .. |>.mp h
      refine ⟨?_, Or.inl ⟨ha.symm, ?_⟩⟩ <;> simp [← ha, ← hst]
    · split at h
      · obtain ⟨ha, hst⟩ := Prod.mk.injEq .. |>.mp h
        refine ⟨?_, Or.inl ⟨ha.symm, ?_⟩⟩ <;> simp [← ha, ← hst]
      · obtain ⟨ha, hst⟩ := Prod.mk.injEq .. |>.mp h
        refine ⟨?_, Or.inr ?_⟩ <;> simp [← ha, ← hst]

theorem pwt_suppressed {st : QueueDet.State} {station : String} {now : ℚ}
    {w : PyFloat} {t : ℚ} {as : List Alert} {st' : QueueDet.State}
    (hget : aget st.lastAlertWait station = some t) (hlt : now - t < 120)
    (h : QueueDet.processWaitTime st station now w = (as, st')) :
    as = [] := by
  simp only [QueueDet.processWaitTime, hget] at h
  split at h
  · exact (Prod.mk.injEq .. |>.mp h).1.symm
  · split at h
    · exact (Prod.mk.injEq .. |>.mp h).1.symm
    · rw [if_pos (by simpa using hlt)] at h
      exact (Prod.mk.injEq .. |>.mp h).1.symm

theorem pql_keeps_wait {st : QueueDet.State} {station : String} {now : ℚ}
    {q : ℤ} {as : List Alert} {st' : QueueDet.State}
    (h : QueueDet.processQueueLength st station now q = (as, st')) :
    st'.lastAlertWait = st.lastAlertWait := by
  simp only [QueueDet.processQueueLength] at h
  split at h
  · obtain ⟨-, hst⟩ := Prod.mk.injEq .. |>.mp h
    simp [← hst]
  · split at h
    · obtain ⟨-, hst⟩ := Prod.mk.injEq .. |>.mp h
      simp [← hst]
    · obtain ⟨-, hst⟩ := Prod.mk.injEq .. |>.mp h
      simp [← hst]

theorem filter_wait_of_spike (l : List Alert)
    (h : ∀ a ∈ l, a.type = "queue_spike") :
    l.filter (fun a => a.type == "extended_wait") = [] := by
  rw [List.filter_eq_nil_iff]
  intro a ha
  simp [h a ha]

theorem filter_wait_of_wait (l : List Alert)
    (h : ∀ a ∈ l, a.type = "extended_wait") :
    l.filter (fun a => a.type == "extended_wait") = l := by
  rw [List.filter_eq_self]
  intro a ha
  simp [h a ha]

theorem queue_combo_wait {st : QueueDet.State} (st1 : QueueDet.State)
    {st2 : QueueDet.State} {a1 a2 : List Alert}
    {station : String} {now : ℚ}
    (h1type : ∀ a ∈ a1, a.type = "queue_spike")
    (h1wst : st1.lastAlertWait = st.lastAlertWait)
    (h2type : ∀ a ∈ a2, a.type = "extended_wait")
    (h2len : a2.length ≤ 1)
    (h2st : (a2 = [] ∧ st2.lastAlertWait = st1.lastAlertWait) ∨
            st2.lastAlertWait = aset st1.lastAlertWait station now)
    (h2sup : ∀ t, aget st1.lastAlertWait station = some t → now - t < 120 →
       a2 = []) :
    ((a1 ++ a2).filter (fun a => a.type == "extended_wait")).length ≤ 1 ∧
    (((a1 ++ a2).filter (fun a => a.type == "extended_wait")) ≠ [] →
       st2.lastAlertWait = aset st.lastAlertWait station now) ∧
    (∀ t, aget st.lastAlertWait station = some t → now - t < 120 →
       (a1 ++ a2).filter (fun a => a.type == "extended_wait") = []) := by
  have hf : (a1 ++ a2).filter (fun a => a.type == "extended_wait") = a2 := by
    rw [List.filter_append, filter_wait_of_spike a1 h1type,
        filter_wait_of_wait a2 h2type, List.nil_append]
  rw [hf]
  refine ⟨h2len, ?_, ?_⟩
  · intro hne
    rcases h2st with ⟨he, -⟩ | hr
    · exact absurd he hne
    · rw [hr, h1wst]
  · intro t hg hl
    exact h2sup t (by rw [h1wst]; exact hg) hl

theorem queue_wait_facts {ev : SentinelEvent} {st : QueueDet.State}
    {as : List Alert} {st' : QueueDet.State}
    (h : QueueDet.detectQueueHealth ev st = .ok (as, st')) :
    (as.filter (fun a => a.type == "extended_wait")).length ≤ 1 ∧
    ((as.filter (fun a => a.type == "extended_wait")) ≠ [] →
       st'.lastAlertWait
         = aset st.lastAlertWait (stationOr ev) ev.timestamp) ∧
    (∀ t, aget st.lastAlertWait (stationOr ev) = some t →
       ev.timestamp - t < 120 →
       as.filter (fun a => a.type == "extended_wait") = []) := by
  simp only [QueueDet.detectQueueHealth] at h
  split at h
  · split at h
    · rename_i d heq
      cases hqlE : pyCoerceInt ((aget d "customer_count").getD .jnull) with
      | error e =>
          simp only [hqlE, Bind.bind, Except.bind] at h
          exact absurd h (by simp)
      | ok oq =>
      simp only [hqlE, Bind.bind, Except.bind] at h
      cases oq with
      | none =>
          dsimp only at h
          cases hdw : pyCoerceFloat ((aget d "average_dwell_time").getD .jnull) with
          | none =>
              simp only [hdw] at h
              obtain ⟨ha, hst⟩ := okPair_inj h
              rw [← ha, ← hst]
              exact queue_combo_wait st (fun a ha => by simp at ha) rfl
                (fun a ha => by simp at ha) (by simp) (Or.inl ⟨rfl, rfl⟩)
                (fun _ _ _ => rfl)
          | some w =>
              simp only [hdw] at h
              rcases hp2 : QueueDet.processWaitTime st (stationOr ev)
                  ev.timestamp w with ⟨a2, st2⟩
              rw [hp2] at h
              obtain ⟨ha, hst⟩ := okPair_inj h
              rw [← ha, ← hst]
              obtain ⟨-, h2t⟩ := pwt_keeps hp2
              obtain ⟨h2len, h2st⟩ := pwt_keeps2 hp2
              exact queue_combo_wait st (fun a ha => by simp at ha) rfl
                h2t h2len h2st (fun t hg hl => pwt_suppressed hg hl hp2)
      | some q =>
          dsimp only at h
          rcases hp1 : QueueDet.processQueueLength st (stationOr ev)
              ev.timestamp q with ⟨a1, st1⟩
          rw [hp1] at h
          obtain ⟨h1t, -, -⟩ := pql_keeps hp1
          have h1wst := pql_keeps_wait hp1
          cases hdw : pyCoerceFloat ((aget d "average_dwell_time").getD .jnull) with
          | none =>
              simp only [hdw] at h
              obtain ⟨ha, hst⟩ := okPair_inj h
              rw [← ha, ← hst]
              exact queue_combo_wait st1 h1t h1wst
                (fun a ha => by simp at ha) (by simp) (Or.inl ⟨rfl, rfl⟩)
                (fun _ _ _ => rfl)
          | some w =>
              simp only [hdw] at h
              rcases hp2 : QueueDet.processWaitTime st1 (stationOr ev)
                  ev.timestamp w with ⟨a2, st2⟩
              rw [hp2] at h
              obtain ⟨ha, hst⟩ := okPair_inj h
              rw [← ha, ← hst]
              obtain ⟨-, h2t⟩ := pwt_keeps hp2
              obtain ⟨h2len, h2st⟩ := pwt_keeps2 hp2
              exact queue_combo_wait st1 h1t h1wst
                h2t h2len h2st
                (fun t hg hl => pwt_suppressed (h1wst ▸ hg) hl hp2)
    · exact absurd h (by simp)
  · obtain ⟨ha, hst⟩ := okPair_inj h
    rw [← ha, ← hst]
    refine ⟨by simp, ?_, fun _ _ _ => by simp⟩
    intro hne
    simp at hne

theorem queue_wait_cooldown_pair
    (st st1 st2 : QueueDet.State) (e1 e2 : SentinelEvent)
    (a1 a2 : List Alert)
    (hst : stationOr e1 = stationOr e2)
    (hgap : e2.timestamp - e1.timestamp < 120)
    (h1 : QueueDet.detectQueueHealth e1 st = .ok (a1, st1))
    (h2 : QueueDet.detectQueueHealth e2 st1 = .ok (a2, st2)) :
    ((a1 ++ a2).filter (fun a => a.type == "extended_wait")).length ≤ 1 := by
  obtain ⟨hlen1, hne1, -⟩ := queue_wait_facts h1
  obtain ⟨hlen2, -, hsup2⟩ := queue_wait_facts h2
  rw [List.filter_append, List.length_append]
  by_cases hf1 : a1.filter (fun a => a.type == "extended_wait") = []
  · rw [hf1]
    simpa using hlen2
  · have hq := hne1 hf1
    have hget : aget st1.lastAlertWait (stationOr e2) = some e1.timestamp := by
      rw [hq, hst]
      exact aget_aset_self _ _ _
    have hf2 := hsup2 e1.timestamp hget hgap
    rw [hf2]
    simpa using hlen1

end Sentinel

namespace Sentinel

theorem scanner_cooldown_pair
    (st st1 st2 : Scanner.State) (e1 e2 : SentinelEvent)
    (a1 a2 : List Alert) (d1 d2 : List (String × JVal))
    (epc loc1 loc2 : String) (sku1 sku2 : Option String)
    (hnpos1 : e1.dataset ∉ posDatasets)
    (hds1 : e1.dataset ∈ Scanner.rfidDatasets)
    (hdata1 : (jget e1.payload "data").getD (.jdict []) = .jdict d1)
    (hepc1 : aget d1 "epc" = some (.jstr epc))
    (hloc1 : aget d1 "location" = some (.jstr loc1))
    (hskuv1 : (match aget d1 "sku" with
               | some (.jstr s) => some s | _ => none) = sku1)
    (hsusp1 : loc1.toUpper ∈ Scanner.suspiciousLocations)
    (hnc1 : ∀ k, sku1 = some k → k ≠ "" → ∀ t,
       aget (Scanner.expireOld e1.timestamp st).recentPos k = some t →
         25 < e1.timestamp - t)
    (hnpos2 : e2.dataset ∉ posDatasets)
    (hds2 : e2.dataset ∈ Scanner.rfidDatasets)
    (hdata2 : (jget e2.payload "data").getD (.jdict []) = .jdict d2)
    (hepc2 : aget d2 "epc" = some (.jstr epc))
    (hloc2 : aget d2 "location" = some (.jstr loc2))
    (hskuv2 : (match aget d2 "sku" with
               | some (.jstr s) => some s | _ => none) = sku2)
    (hsusp2 : loc2.toUpper ∈ Scanner.suspiciousLocations)
    (hnc2 : ∀ k, sku2 = some k → k ≠ "" → ∀ t,
       aget (Scanner.expireOld e2.timestamp st1).recentPos k = some t →
         25 < e2.timestamp - t)
    (hgap : e2.timestamp - e1.timestamp ≤ 30)
    (h1 : Scanner.detectScannerAvoidance e1 st = .ok (a1, st1))
    (h2 : Scanner.detectScannerAvoidance e2 st1 = .ok (a2, st2)) :
    a1.length + a2.length ≤ 1 := by
  obtain ⟨ls1, hrun1⟩ :=
    scanner_qualified_run e1 st d1 epc loc1 sku1 hnpos1 hds1 hdata1 hepc1
      hloc1 hskuv1 hsusp1 hnc1
  rw [hrun1] at h1
  injection h1 with hpair1
  obtain ⟨ls2, hrun2⟩ :=
    scanner_qualified_run e2 st1 d2 epc loc2 sku2 hnpos2 hds2 hdata2 hepc2
      hloc2 hskuv2 hsusp2 hnc2
  rw [hrun2] at h2
  injection h2 with hpair2
  set stE1 : Scanner.State :=
    { Scanner.expireOld e1.timestamp st with
      recentRfid := aset (Scanner.expireOld e1.timestamp st).recentRfid epc
        ⟨sku1, loc1.toUpper, e1.timestamp⟩ } with hstE1
  set stE2 : Scanner.State :=
    { Scanner.expireOld e2.timestamp st1 with
      recentRfid := aset (Scanner.expireOld e2.timestamp st1).recentRfid epc
        ⟨sku2, loc2.toUpper, e2.timestamp⟩ } with hstE2
  by_cases hae : a1 = []
  · have hlen2 : a2.length ≤ 1 := by
      have hx := scannerEmit_len (stationOr e2) e2.timestamp epc
        ⟨sku2, loc2.toUpper, e2.timestamp⟩ ls2 stE2
      rw [hpair2] at hx
      simpa using hx
    rw [hae]
    simpa using hlen2
  · have hne : (Scanner.scannerEmit (stationOr e1) e1.timestamp epc
        ⟨sku1, loc1.toUpper, e1.timestamp⟩ ls1 stE1).1 ≠ [] := by
      rw [hpair1]
      simpa using hae
    obtain ⟨hl1, hcd1⟩ := scannerEmit_emit_inv _ _ _ _ _ _ hne
    have hlen1 : a1.length = 1 := by
      have hx := hl1
      rw [hpair1] at hx
      simpa using hx
    have hst1cd : st1.cooldown = aset stE1.cooldown epc e1.timestamp := by
      have hx := hcd1
      rw [hpair1] at hx
      simpa using hx
    have hcd2 : aget (Scanner.expireOld e2.timestamp st1).cooldown epc
        = some e1.timestamp := by
      show aget (st1.cooldown.filter
        (fun p => decide (¬ (e2.timestamp - p.2 > 30)))) epc = some e1.timestamp
      rw [hst1cd, aset, List.filter_cons_of_pos
        (by simpa using not_lt.mpr hgap)]
      simp
    have hse : Scanner.shouldEmitAlert stE2 epc e2.timestamp = false :=
      shouldEmit_false_of stE2 epc e2.timestamp e1.timestamp hcd2
        (not_lt.mpr hgap)
    have hblk := scannerEmit_of_blocked (stationOr e2) e2.timestamp epc
      ⟨sku2, loc2.toUpper, e2.timestamp⟩ ls2 stE2 hse
    have ha2 : a2 = [] := by
      rw [hblk] at hpair2
      exact ((Prod.mk.injEq _ _ _ _).mp hpair2).1.symm
    rw [ha2, hlen1]
    simp

theorem system_cooldown_pair
    (st st1 st2 : SystemHealth.State) (e1 e2 : SentinelEvent)
    (a1 a2 : List Alert)
    (hkd : e1.dataset = e2.dataset) (hks : e1.station_id = e2.station_id)
    (hgap : e2.timestamp - e1.timestamp < 180)
    (h1 : SystemHealth.detectSystemHealth e1 st = .ok (a1, st1))
    (h2 : SystemHealth.detectSystemHealth e2 st1 = .ok (a2, st2)) :
    a1.length + a2.length ≤ 1 := by
  cases a1 with
  | nil =>
      simp only [List.length_nil, Nat.zero_add]
      exact system_len h2
  | cons a rest =>
      obtain ⟨hrest, hst1⟩ := system_alert_inv h1
      have hget : aget st1 (e2.dataset, e2.station_id)
          = some ⟨some e1.timestamp, false⟩ := by
        rw [hst1, ← hkd, ← hks]
        exact aget_aset_self _ _ _
      have ha2 : a2 = [] :=
        system_suppressed hget rfl hgap h2
      rw [hrest, ha2]
      simp

theorem queue_cooldown_pair
    (st st1 st2 : QueueDet.State) (e1 e2 : SentinelEvent)
    (a1 a2 : List Alert)
    (hst : stationOr e1 = stationOr e2)
    (hgap : e2.timestamp - e1.timestamp < 120)
    (h1 : QueueDet.detectQueueHealth e1 st = .ok (a1, st1))
    (h2 : QueueDet.detectQueueHealth e2 st1 = .ok (a2, st2)) :
    ((a1 ++ a2).filter (fun a => a.type == "queue_spike")).length ≤ 1 := by
  obtain ⟨hlen1, hne1, -⟩ := queue_spikes_facts h1
  obtain ⟨hlen2, -, hsup2⟩ := queue_spikes_facts h2
  rw [List.filter_append, List.length_append]
  by_cases hf1 : a1.filter (fun a => a.type == "queue_spike") = []
  · rw [hf1]
    simpa using hlen2
  · have hq := hne1 hf1
    have hget : aget st1.lastAlertQueue (stationOr e2) = some e1.timestamp := by
      rw [hq, hst]
      exact aget_aset_self _ _ _
    have hf2 := hsup2 e1.timestamp hget hgap
    rw [hf2]
    simpa using hlen1

end Sentinel

namespace Sentinel

def evScanPoss (t : ℚ) : SentinelEvent :=
  { dataset := "RFID_data", timestamp := t, station_id := some "S"
    payload := [("data", .jdict
      [("epc", .jstr "EP"), ("location", .jstr "EXIT_GATE")])] }

def scanPoss1 : List Alert × Scanner.State :=
  match Scanner.detectScannerAvoidance (evScanPoss 0) ⟨[], [], []⟩ with
  | .ok r => r
  | .error _ => ([], ⟨[], [], []⟩)

def scanPoss2 : List Alert × Scanner.State :=
  match Scanner.detectScannerAvoidance (evScanPoss 31) scanPoss1.2 with
  | .ok r => r
  | .error _ => ([], scanPoss1.2)

def scanCd2 : List Alert × Scanner.State :=
  match Scanner.detectScannerAvoidance (evScanPoss 30) scanPoss1.2 with
  | .ok r => r
  | .error _ => ([], scanPoss1.2)

def evSysPoss (t : ℚ) : SentinelEvent :=
  { dataset := "system_status", timestamp := t, station_id := some "S"
    payload := [("status", .jstr "Offline")] }

def sysPoss1 : List Alert × SystemHealth.State :=
  match SystemHealth.detectSystemHealth (evSysPoss 0) [] with
  | .ok r => r
  | .error _ => ([], [])

def sysPoss2 : List Alert × SystemHealth.State :=
  match SystemHealth.detectSystemHealth (evSysPoss 180) sysPoss1.2 with
  | .ok r => r
  | .error _ => ([], sysPoss1.2)

def evQuePoss (t : ℚ) : SentinelEvent :=
  { dataset := "queue_monitoring", timestamp := t, station_id := some "S"
    payload := [("data", .jdict [("customer_count", .jint 9)])] }

def quePoss1 : List Alert × QueueDet.State :=
  match QueueDet.detectQueueHealth (evQuePoss 0) ⟨[], [], [], []⟩ with
  | .ok r => r
  | .error _ => ([], ⟨[], [], [], []⟩)

def quePoss2 : List Alert × QueueDet.State :=
  match QueueDet.detectQueueHealth (evQuePoss 120) quePoss1.2 with
  | .ok r => r
  | .error _ => ([], quePoss1.2)

def evQueWait (t : ℚ) : SentinelEvent :=
  { dataset := "queue_monitoring", timestamp := t, station_id := some "S"
    payload := [("data", .jdict [("average_dwell_time", .jfloat 200)])] }

def queW1 : List Alert × QueueDet.State :=
  match QueueDet.detectQueueHealth (evQueWait 0) ⟨[], [], [], []⟩ with
  | .ok r => r
  | .error _ => ([], ⟨[], [], [], []⟩)

def queW2 : List Alert × QueueDet.State :=
  match QueueDet.detectQueueHealth (evQueWait 1) queW1.2 with
  | .ok r => r
  | .error _ => ([], queW1.2)

def queW3 : List Alert × QueueDet.State :=
  match QueueDet.detectQueueHealth (evQueWait 2) queW2.2 with
  | .ok r => r
  | .error _ => ([], queW2.2)

def queW4 : List Alert × QueueDet.State :=
  match QueueDet.detectQueueHealth (evQueWait 122) queW3.2 with
  | .ok r => r
  | .error _ => ([], queW3.2)

/-- C4 counterexample: two fully-qualifying scanner-avoidance RFID reads of
the same EPC spaced exactly C = 30 s apart produce one alert in total — the
second is suppressed because `_should_emit_alert` requires strictly more
than 30 s (`now - last > ALERT_COOLDOWN`), so "events spaced ≥ C apart may
both alert" fails for the scanner-avoidance detector at spacing exactly C. -/
theorem C4_counterexample :
    (evScanPoss 30).timestamp - (evScanPoss 0).timestamp = 30 ∧
    scanPoss1.1.length = 1 ∧ scanCd2.1.length = 0 := by
  refine ⟨?_, ?_, ?_⟩ <;> with_unfolding_all decide

/-- C4 (amended): for each cooldown-guarded detector, two qualifying events
for the same key spaced less than the cooldown C apart produce at most one
alert in total — per EPC for scanner-avoidance, per (dataset, station) for
system-health, and per station separately for each of the queue detector's
two channels, `queue_spike` and `extended_wait` (for the scanner the
suppression is inclusive: spacing ≤ C still suppresses); events spaced
beyond the suppression window may both alert — strictly more than 30 s for
scanner-avoidance, and at least 180 s / 120 s / 120 s for system-health /
queue-spike / extended-wait, witnessed by concrete runs at 31 s, exactly
180 s, exactly 120 s and exactly 120 s. -/
theorem C4_cooldown_property :
    (∀ (st st1 st2 : Scanner.State) (e1 e2 : SentinelEvent)
       (a1 a2 : List Alert) (d1 d2 : List (String × JVal))
       (epc loc1 loc2 : String) (sku1 sku2 : Option String),
       e1.dataset ∉ posDatasets → e1.dataset ∈ Scanner.rfidDatasets →
       (jget e1.payload "data").getD (.jdict []) = .jdict d1 →
       aget d1 "epc" = some (.jstr epc) →
       aget d1 "location" = some (.jstr loc1) →
       (match aget d1 "sku" with
        | some (.jstr s) => some s | _ => none) = sku1 →
       loc1.toUpper ∈ Scanner.suspiciousLocations →
       (∀ k, sku1 = some k → k ≠ "" → ∀ t,
          aget (Scanner.expireOld e1.timestamp st).recentPos k = some t →
            25 < e1.timestamp - t) →
       e2.dataset ∉ posDatasets → e2.dataset ∈ Scanner.rfidDatasets →
       (jget e2.payload "data").getD (.jdict []) = .jdict d2 →
       aget d2 "epc" = some (.jstr epc) →
       aget d2 "location" = some (.jstr loc2) →
       (match aget d2 "sku" with
        | some (.jstr s) => some s | _ => none) = sku2 →
       loc2.toUpper ∈ Scanner.suspiciousLocations →
       (∀ k, sku2 = some k → k ≠ "" → ∀ t,
          aget (Scanner.expireOld e2.timestamp st1).recentPos k = some t →
            25 < e2.timestamp - t) →
       e2.timestamp - e1.timestamp ≤ 30 →
       Scanner.detectScannerAvoidance e1 st = .ok (a1, st1) →
       Scanner.detectScannerAvoidance e2 st1 = .ok (a2, st2) →
       a1.length + a2.length ≤ 1) ∧
    (∀ (st st1 st2 : SystemHealth.State) (e1 e2 : SentinelEvent)
       (a1 a2 : List Alert),
       e1.dataset = e2.dataset → e1.station_id = e2.station_id →
       e2.timestamp - e1.timestamp < 180 →
       SystemHealth.detectSystemHealth e1 st = .ok (a1, st1) →
       SystemHealth.detectSystemHealth e2 st1 = .ok (a2, st2) →
       a1.length + a2.length ≤ 1) ∧
    (∀ (st st1 st2 : QueueDet.State) (e1 e2 : SentinelEvent)
       (a1 a2 : List Alert),
       stationOr e1 = stationOr e2 →
       e2.timestamp - e1.timestamp < 120 →
       QueueDet.detectQueueHealth e1 st = .ok (a1, st1) →
       QueueDet.detectQueueHealth e2 st1 = .ok (a2, st2) →
       ((a1 ++ a2).filter (fun a => a.type == "queue_spike")).length ≤ 1) ∧
    (∀ (st st1 st2 : QueueDet.State) (e1 e2 : SentinelEvent)
       (a1 a2 : List Alert),
       stationOr e1 = stationOr e2 →
       e2.timestamp - e1.timestamp < 120 →
       QueueDet.detectQueueHealth e1 st = .ok (a1, st1) →
       QueueDet.detectQueueHealth e2 st1 = .ok (a2, st2) →
       ((a1 ++ a2).filter (fun a => a.type == "extended_wait")).length ≤ 1) ∧
    (scanPoss1.1.length = 1 ∧ scanPoss2.1.length = 1) ∧
    (sysPoss1.1.length = 1 ∧ sysPoss2.1.length = 1) ∧
    (quePoss1.1.length = 1 ∧ quePoss2.1.length = 1) ∧
    (queW3.1.length = 1 ∧ queW4.1.length = 1) := by
  refine ⟨?_, ?_, ?_, ?_, ⟨?_, ?_⟩, ⟨?_, ?_⟩, ⟨?_, ?_⟩, ⟨?_, ?_⟩⟩
  · intro st st1 st2 e1 e2 a1 a2 d1 d2 epc loc1 loc2 sku1 sku2
      hnpos1 hds1 hdata1 hepc1 hloc1 hskuv1 hsusp1 hnc1
      hnpos2 hds2 hdata2 hepc2 hloc2 hskuv2 hsusp2 hnc2 hgap h1 h2
    exact scanner_cooldown_pair st st1 st2 e1 e2 a1 a2 d1 d2 epc loc1 loc2
      sku1 sku2 hnpos1 hds1 hdata1 hepc1 hloc1 hskuv1 hsusp1 hnc1
      hnpos2 hds2 hdata2 hepc2 hloc2 hskuv2 hsusp2 hnc2 hgap h1 h2
  · intro st st1 st2 e1 e2 a1 a2 hkd hks hgap h1 h2
    exact system_cooldown_pair st st1 st2 e1 e2 a1 a2 hkd hks hgap h1 h2
  · intro st st1 st2 e1 e2 a1 a2 hst hgap h1 h2
    exact queue_cooldown_pair st st1 st2 e1 e2 a1 a2 hst hgap h1 h2
  · intro st st1 st2 e1 e2 a1 a2 hst hgap h1 h2
    exact queue_wait_cooldown_pair st st1 st2 e1 e2 a1 a2 hst hgap h1 h2
  all_goals with_unfolding_all decide

theorem C4_cooldown_property_witness :
    (evScanPoss 30).timestamp - (evScanPoss 0).timestamp ≤ 30 ∧
    scanPoss1.1.length + scanCd2.1.length ≤ 1 :=
  ⟨by with_unfolding_all decide,
   C4_cooldown_property.1 ⟨[], [], []⟩ scanPoss1.2 scanCd2.2
     (evScanPoss 0) (evScanPoss 30) scanPoss1.1 scanCd2.1
     [("epc", .jstr "EP"), ("location", .jstr "EXIT_GATE")]
     [("epc", .jstr "EP"), ("location", .jstr "EXIT_GATE")]
     "EP" "EXIT_GATE" "EXIT_GATE" none none
     (by decide) (by decide) (by with_unfolding_all rfl)
     (by with_unfolding_all rfl) (by with_unfolding_all rfl)
     (by with_unfolding_all rfl) (by with_unfolding_all decide)
     (by intro k hk; exact Option.noConfusion hk)
     (by decide) (by decide) (by with_unfolding_all rfl)
     (by with_unfolding_all rfl) (by with_unfolding_all rfl)
     (by with_unfolding_all rfl) (by with_unfolding_all decide)
     (by intro k hk; exact Option.noConfusion hk)
     (by with_unfolding_all decide)
     (by with_unfolding_all rfl) (by with_unfolding_all rfl)⟩

end Sentinel

namespace Sentinel

def evC3 : SentinelEvent :=
  { dataset := "product_recognition", timestamp := 0, station_id := some "S"
    payload := [("data", .jstr "boom")] }

def evC3w : SentinelEvent :=
  { dataset := "queue_monitoring", timestamp := 0, station_id := some "S"
    payload := [("data", .jdict [("customer_count", .jint 3)])] }

def evC3inf : SentinelEvent :=
  { dataset := "queue_monitoring", timestamp := 0, station_id := some "S"
    payload := [("data", .jdict [("customer_count", .jstr "inf")])] }

/-- C3 counterexample: a vision event whose `"data"` field is the string
`"boom"` makes `detect_barcode_switching` raise `AttributeError` (the code
calls `.get` on the value of `data or {}`), even though the scanner detector
would have handled the same event without raising; and a queue event whose
dict data carries `customer_count: "inf"` makes `_coerce_int` raise an
uncaught `OverflowError` at `int(float("inf"))` (only `ValueError` is
caught).  `process_event` has no try/except around the detector loop, so in
both cases the whole call raises and the remaining detectors never run —
both halves of the claim fail. -/
theorem C3_counterexample :
    Barcode.detectBarcodeSwitching evC3 initialDetectors.barcode
      = .error .attributeError ∧
    Scanner.detectScannerAvoidance evC3 initialDetectors.scanner
      = .ok ([], initialDetectors.scanner) ∧
    processEvent [] [] evC3 initialDetectors = .error .attributeError ∧
    QueueDet.detectQueueHealth evC3inf initialDetectors.queue
      = .error .overflowError ∧
    processEvent [] [] evC3inf initialDetectors = .error .overflowError := by
  refine ⟨?_, ?_, ?_, ?_, ?_⟩ <;> with_unfolding_all rfl

/-- C3 (amended): for every event whose `"data"` payload field is absent or
is a dict, and whose `customer_count` entry does not make the queue
detector's `int(float(s))` coercion overflow, each of the six detectors
returns normally with a (possibly empty) alert list, and `process_event`
returns normally with the concatenation of their alerts.  The exclusions
are genuine failure modes of the program: a present non-dict `"data"` value
makes the barcode, scanner, weight and (for truthy values) queue detectors
raise `AttributeError`, and a `customer_count` string coercing to an
infinite float makes `_coerce_int` raise an uncaught `OverflowError`; in
either case `process_event` propagates the exception, aborting the loop. -/
theorem C3_detector_totality (catalog : List (String × Weight.CatalogEntry))
    (expected : List (String × ℤ)) (ev : SentinelEvent) (st : DetectorsState)
    (hdata : jget ev.payload "data" = none ∨
      ∃ d, jget ev.payload "data" = some (.jdict d))
    (hqc : ∀ d, jget ev.payload "data" = some (.jdict d) →
      ∃ o, pyCoerceInt ((aget d "customer_count").getD .jnull) = .ok o) :
    (∃ p, Barcode.detectBarcodeSwitching ev st.barcode = .ok p) ∧
    (∃ p, Scanner.detectScannerAvoidance ev st.scanner = .ok p) ∧
    (∃ p, Weight.detectWeightDiscrepancy catalog ev st.weight = .ok p) ∧
    (∃ p, SystemHealth.detectSystemHealth ev st.system = .ok p) ∧
    (∃ p, QueueDet.detectQueueHealth ev st.queue = .ok p) ∧
    (∃ p, Inventory.detectInventoryDiscrepancy expected ev st.inventory = .ok p) ∧
    ∃ a1 a2 a3 a4 a5 a6 st',
      processEvent catalog expected ev st = .ok (a1 ++ a2 ++ a3 ++ a4 ++ a5 ++ a6, st') := by
  obtain ⟨d', hd⟩ : ∃ d', (jget ev.payload "data").getD (.jdict []) = .jdict d' := by
    rcases hdata with h | ⟨d, h⟩
    · exact ⟨[], by rw [h]; rfl⟩
    · exact ⟨d, by rw [h]; rfl⟩
  have hbar : ∃ p, Barcode.detectBarcodeSwitching ev st.barcode = .ok p := by
    unfold Barcode.detectBarcodeSwitching
    rw [hd]
    repeat' first | split | exact ⟨_, rfl⟩ | dsimp only
  have hsca : ∃ p, Scanner.detectScannerAvoidance ev st.scanner = .ok p := by
    unfold Scanner.detectScannerAvoidance
    rw [hd]
    repeat' first | split | exact ⟨_, rfl⟩ | dsimp only
  have hwei : ∃ p, Weight.detectWeightDiscrepancy catalog ev st.weight = .ok p := by
    unfold Weight.detectWeightDiscrepancy
    rw [hd]
    repeat' first | split | exact ⟨_, rfl⟩ | dsimp only
  have hsys : ∃ p, SystemHealth.detectSystemHealth ev st.system = .ok p := by
    unfold SystemHealth.detectSystemHealth
    repeat' first | split | exact ⟨_, rfl⟩ | dsimp only
  have hque : ∃ p, QueueDet.detectQueueHealth ev st.queue = .ok p := by
    have hdv : ∃ d0,
        (if jTruthy ((jget ev.payload "data").getD .jnull) = true
         then (jget ev.payload "data").getD .jnull
         else JVal.jdict []) = JVal.jdict d0 ∧
        (d0 = [] ∨ jget ev.payload "data" = some (.jdict d0)) := by
      rcases hdata with h | ⟨d, h⟩
      · rw [h]; exact ⟨[], rfl, Or.inl rfl⟩
      · rw [h]
        by_cases hb : jTruthy ((some (JVal.jdict d)).getD .jnull) = true
        · rw [if_pos hb]; exact ⟨d, rfl, Or.inr rfl⟩
        · rw [if_neg hb]; exact ⟨[], rfl, Or.inl rfl⟩
    obtain ⟨d0, hdv0, hprov⟩ := hdv
    have hok : ∃ o, pyCoerceInt ((aget d0 "customer_count").getD .jnull) = .ok o := by
      rcases hprov with rfl | hpd
      · exact ⟨none, rfl⟩
      · exact hqc d0 hpd
    obtain ⟨o, hok⟩ := hok
    unfold QueueDet.detectQueueHealth
    dsimp only
    rw [hdv0]
    dsimp only
    simp only [Bind.bind, Except.bind, hok]
    repeat' first | split | exact ⟨_, rfl⟩
  have hinv : ∃ p, Inventory.detectInventoryDiscrepancy expected ev st.inventory = .ok p := by
    unfold Inventory.detectInventoryDiscrepancy
    repeat' first | split | exact ⟨_, rfl⟩
  obtain ⟨⟨a1, b⟩, hb⟩ := hbar
  obtain ⟨⟨a2, sc⟩, hs⟩ := hsca
  obtain ⟨⟨a3, w⟩, hw⟩ := hwei
  obtain ⟨⟨a4, sy⟩, hy⟩ := hsys
  obtain ⟨⟨a5, q⟩, hq⟩ := hque
  obtain ⟨⟨a6, i⟩, hi⟩ := hinv
  refine ⟨⟨_, hb⟩, ⟨_, hs⟩, ⟨_, hw⟩, ⟨_, hy⟩, ⟨_, hq⟩, ⟨_, hi⟩,
    a1, a2, a3, a4, a5, a6, ⟨b, sc, w, sy, q, i⟩, ?_⟩
  simp only [processEvent, Bind.bind, Except.bind, hb, hs, hw, hy, hq, hi]
  rfl

theorem C3_detector_totality_witness :
    (jget evC3w.payload "data" = none ∨
      ∃ d, jget evC3w.payload "data" = some (.jdict d)) ∧
    (∃ a1 a2 a3 a4 a5 a6 st',
      processEvent [] [] evC3w initialDetectors
        = .ok (a1 ++ a2 ++ a3 ++ a4 ++ a5 ++ a6, st')) :=
  ⟨Or.inr ⟨[("customer_count", .jint 3)], by with_unfolding_all rfl⟩,
   (C3_detector_totality [] [] evC3w initialDetectors
      (Or.inr ⟨[("customer_count", .jint 3)],
        by with_unfolding_all rfl⟩)
      (by
        intro d hd
        rw [show jget evC3w.payload "data"
            = some (JVal.jdict [("customer_count", JVal.jint 3)]) from rfl] at hd
        injection hd with h1
        injection h1 with h2
        subst h2
        exact ⟨some 3, rfl⟩)).2.2.2.2.2.2⟩

end Sentinel

namespace Sentinel.Correlator

lemma memOfGetLast {α : Type} : ∀ {l : List α} {a : α}, l.getLast? = some a → a ∈ l
  | [], a, h => by simp at h
  | [x], a, h => by
      simp at h
      subst h
      exact List.mem_singleton_self x
  | x :: y :: l, a, h => by
      rw [List.getLast?_cons_cons] at h
      exact List.mem_cons_of_mem _ (memOfGetLast h)

/-- On an all-aware deque whose last element is not older than the aware
cutoff, `_prune` returns normally, keeps the last element, and removes only
elements of the original deque. -/
lemma pruneEvents_keep_last (ws : PyDateTime) (r : CorrEvent)
    (hr : dtLt r.timestamp ws = .ok false) (hws : ws.aware = true) :
    ∀ l : List CorrEvent, (∀ e ∈ l, e.timestamp.aware = true) →
    ∃ rem, pruneEvents ws (l ++ [r]) = (none, rem) ∧
      rem.getLast? = some r ∧ ∀ e ∈ rem, e ∈ l ++ [r]
  | [], _ => by
      refine ⟨[r], ?_, rfl, fun e he => he⟩
      simp only [List.nil_append, pruneEvents, hr]
  | e :: l, hall => by
      have he : e.timestamp.aware = true := hall e (List.mem_cons_self e l)
      obtain ⟨rem, h1, h2, h3⟩ :=
        pruneEvents_keep_last ws r hr hws l
          (fun x hx => hall x (List.mem_cons_of_mem _ hx))
      by_cases hb : e.timestamp.sec < ws.sec
      · have hlt : dtLt e.timestamp ws = .ok true := by
          simp [dtLt, he, hws, hb]
        refine ⟨rem, ?_, h2, fun x hx => List.mem_cons_of_mem _ (h3 x hx)⟩
        simp [pruneEvents, hlt, h1]
      · have hlt : dtLt e.timestamp ws = .ok false := by
          simp [dtLt, he, hws, hb]
        refine ⟨e :: (l ++ [r]), ?_, ?_, fun x hx => hx⟩
        · simp [pruneEvents, hlt]
        · rw [show e :: (l ++ [r]) = (e :: l) ++ [r] by simp]
          exact List.getLast?_concat _

/-- `_collect_recent_events`' filter never raises when the window start and
all stored timestamps are aware, and returns a sublist of the input. -/
lemma filterRecent_aware_ok (sid : String) (ws : PyDateTime)
    (hws : ws.aware = true) :
    ∀ l : List CorrEvent, (∀ e ∈ l, e.timestamp.aware = true) →
    ∃ res, filterRecent sid ws l = .ok res ∧ ∀ e ∈ res, e ∈ l
  | [], _ => ⟨[], rfl, fun e he => he⟩
  | e :: l, hall => by
      obtain ⟨res, h1, h2⟩ := filterRecent_aware_ok sid ws hws l
        (fun x hx => hall x (List.mem_cons_of_mem _ hx))
      have hea : e.timestamp.aware = true := hall e (List.mem_cons_self e l)
      by_cases hst : e.station_id = sid
      · by_cases hge : ws.sec ≤ e.timestamp.sec
        · have hg : dtGe e.timestamp ws = .ok true := by
            simp [dtGe, hea, hws, hge]
          refine ⟨e :: res, ?_, ?_⟩
          · simp [filterRecent, hst, hg, Bind.bind, Except.bind, h1]
          · intro x hx
            rcases List.mem_cons.mp hx with h | h
            · exact h ▸ List.mem_cons_self e l
            · exact List.mem_cons_of_mem _ (h2 x h)
        · have hg : dtGe e.timestamp ws = .ok false := by
            simp [dtGe, hea, hws, hge]
          refine ⟨res, ?_, fun x hx => List.mem_cons_of_mem _ (h2 x hx)⟩
          simp [filterRecent, hst, hg, Bind.bind, Except.bind, h1]
      · refine ⟨res, ?_, fun x hx => List.mem_cons_of_mem _ (h2 x hx)⟩
        simp only [filterRecent, if_neg hst]
        exact h1

/-- `_time_alignment` never raises when the pivot and all compared
timestamps are aware. -/
lemma timeAlignment_aware_ok (w : ℚ) (pivot : PyDateTime)
    (others : List PyDateTime) (hp : pivot.aware = true)
    (ho : ∀ t ∈ others, t.aware = true) :
    ∃ q, timeAlignment w pivot others = .ok q := by
  have hmap : ∀ l : List PyDateTime, (∀ t ∈ l, t.aware = true) →
      l.mapM (fun x => (dtSub pivot x).map abs)
        = .ok (l.map (fun x => |pivot.sec - x.sec|)) := by
    intro l hl
    induction l with
    | nil => rfl
    | cons x xs ih =>
        have hx : (dtSub pivot x).map abs = .ok |pivot.sec - x.sec| := by
          have h := hl x (List.mem_cons_self x xs)
          simp [dtSub, hp, h, Except.map]
        have ihx := ih (fun t ht => hl t (List.mem_cons_of_mem _ ht))
        rw [List.mapM_cons]
        simp only [hx, ihx, Bind.bind, Except.bind, pure, Except.pure, List.map_cons]
  cases others with
  | nil => exact ⟨0, rfl⟩
  | cons o rest =>
      have h0 : (dtSub pivot o).map abs = .ok |pivot.sec - o.sec| := by
        have h := ho o (List.mem_cons_self o rest)
        simp [dtSub, hp, h, Except.map]
      refine ⟨max 0 (1 - ((rest.map (fun x => |pivot.sec - x.sec|)).foldl min
        |pivot.sec - o.sec|) / max w 1), ?_⟩
      simp only [timeAlignment, Bind.bind, Except.bind, h0,
        hmap rest (fun t ht => ho t (List.mem_cons_of_mem _ ht))]

end Sentinel.Correlator

namespace Sentinel.Correlator

/-- `_assess_pos_event` never raises when the POS pivot and all candidate
match timestamps are aware. -/
lemma assessPosEvent_aware_ok (w : ℚ) (sid : String) (p : CorrEvent)
    (rfid vision : List CorrEvent) (seenC seenS : List SeenKey)
    (hp : p.timestamp.aware = true)
    (hr : ∀ e ∈ rfid, e.timestamp.aware = true)
    (hv : ∀ e ∈ vision, e.timestamp.aware = true) :
    ∃ res, assessPosEvent w sid p rfid vision seenC seenS = .ok res := by
  unfold assessPosEvent
  cases hsku : extractSku p.payload with
  | none => exact ⟨_, rfl⟩
  | some sku =>
      obtain ⟨q, hq⟩ := timeAlignment_aware_ok w p.timestamp
        ((rfid.filter (fun e => decide (extractSku e.payload = some sku)) ++
          vision.filter (fun e => decide (extractSku e.payload = some sku))).map
          CorrEvent.timestamp) hp (by
            intro t ht
            simp only [List.mem_map, List.mem_append, List.mem_filter] at ht
            obtain ⟨e, he, rfl⟩ := ht
            rcases he with ⟨he, -⟩ | ⟨he, -⟩
            · exact hr e he
            · exact hv e he)
      exact ⟨_, by simp only [Bind.bind, Except.bind, hq]; rfl⟩

/-- The per-POS-event loop of `_evaluate_station` never raises when all
event timestamps involved are aware. -/
lemma evalPosList_aware_ok (w : ℚ) (sid : String) (rfid vision : List CorrEvent)
    (hr : ∀ e ∈ rfid, e.timestamp.aware = true)
    (hv : ∀ e ∈ vision, e.timestamp.aware = true) :
    ∀ (ps : List CorrEvent) (seenC seenS : List SeenKey),
      (∀ e ∈ ps, e.timestamp.aware = true) →
      ∃ res, evalPosList w sid rfid vision ps seenC seenS = .ok res
  | [], seenC, seenS, _ => ⟨_, rfl⟩
  | p :: ps, seenC, seenS, hp => by
      obtain ⟨⟨c, s, sC, sS⟩, h1⟩ :=
        assessPosEvent_aware_ok w sid p rfid vision seenC seenS
          (hp p (List.mem_cons_self p ps)) hr hv
      obtain ⟨⟨cs, ss, sC2, sS2⟩, h2⟩ :=
        evalPosList_aware_ok w sid rfid vision hr hv ps sC sS
          (fun e he => hp e (List.mem_cons_of_mem _ he))
      exact ⟨_, by simp only [evalPosList, Bind.bind, Except.bind, h1, h2]; rfl⟩

/-- `_evaluate_station` never raises when every stored timestamp is aware,
and it only updates the two dedup sets of the state. -/
lemma evaluateStation_aware_ok (st : CState) (sid : String)
    (hall : ∀ e ∈ st.events, e.timestamp.aware = true) :
    ∃ cs ss sC sS, evaluateStation st sid
      = .ok (cs, ss,
          { st with seenCorrelations := sC, seenSuspicious := sS }) := by
  cases hlast : st.events.getLast? with
  | none =>
      have hcr : collectRecent st.events sid st.window = .ok [] := by
        simp [collectRecent, hlast]
      refine ⟨[], [], st.seenCorrelations, st.seenSuspicious, ?_⟩
      simp [evaluateStation, Bind.bind, Except.bind, hcr]
  | some lastEv =>
      have hlw : (dtShift lastEv.timestamp (-st.window)).aware = true := by
        have h := hall lastEv (memOfGetLast hlast)
        simpa [dtShift] using h
      obtain ⟨recent, h1, h2⟩ := filterRecent_aware_ok sid
        (dtShift lastEv.timestamp (-st.window)) hlw st.events hall
      have hcr : collectRecent st.events sid st.window = .ok recent := by
        simp [collectRecent, hlast, h1]
      by_cases hre : recent.isEmpty
      · refine ⟨[], [], st.seenCorrelations, st.seenSuspicious, ?_⟩
        simp [evaluateStation, Bind.bind, Except.bind, hcr, hre]
      · obtain ⟨⟨cs, ss, sC, sS⟩, hev⟩ :=
          evalPosList_aware_ok st.window sid
            (recent.filter (fun e => decide (e.stream ∈ rfidStreams)))
            (recent.filter (fun e => decide (e.stream ∈ visionStreams)))
            (fun e he => hall e (h2 e (List.mem_filter.mp he).1))
            (fun e he => hall e (h2 e (List.mem_filter.mp he).1))
            (recent.filter (fun e => decide (e.stream ∈ posStreams)))
            st.seenCorrelations st.seenSuspicious
            (fun e he => hall e (h2 e (List.mem_filter.mp he).1))
        refine ⟨cs, ss, sC, sS, ?_⟩
        simp only [evaluateStation, Bind.bind, Except.bind, hcr, hre, hev]
        simp [hre]

end Sentinel.Correlator

namespace Sentinel

def isoParseC10 : String → Option PyDateTime :=
  fun s => if s = "TNAIVE" then some ⟨false, 100⟩ else none

def stC10 : Correlator.CState :=
  (Correlator.registerEvent isoParseC10 0 "pos"
    [("timestamp", .jstr "TNAIVE"), ("station_id", .jstr "A")]
    (Correlator.mkCorrelator 12 500)).2

/-- C10 counterexample: `_parse_timestamp`'s fallback is the timezone-aware
`datetime.now(timezone.utc)`, while an ISO timestamp without an offset
parses to a naive datetime.  Registering first an event with a naive
parsed timestamp and then one with a missing timestamp makes `_prune`
compare a naive stored timestamp against the aware window start and raise
`TypeError`: `register_event` does not return normally, although the new
event was already appended with the wall-clock timestamp substituted. -/
theorem C10_counterexample :
    (Correlator.registerEvent isoParseC10 0 "pos"
        [("timestamp", .jstr "TNAIVE"), ("station_id", .jstr "A")]
        (Correlator.mkCorrelator 12 500)).1 = .ok ([], []) ∧
    (Correlator.registerEvent isoParseC10 200 "pos"
        [("station_id", .jstr "A")] stC10).1 = .error .typeError ∧
    (Correlator.registerEvent isoParseC10 200 "pos"
        [("station_id", .jstr "A")] stC10).2.events.map
        (fun e => e.timestamp) = [⟨false, 100⟩, ⟨true, 200⟩] := by
  refine ⟨?_, ?_, ?_⟩ <;> with_unfolding_all rfl

/-- C10 (amended): when the event's timestamp field is absent or fails to
parse, `register_event` substitutes the aware wall-clock time and records
the event at the end of the sliding window; it returns normally provided
every previously stored timestamp is aware (and the window length is
non-negative, as the constructor guarantees).  If the deque holds a naive
timestamp — which `_parse_timestamp` itself produces for offset-free ISO
strings — the pruning comparison raises `TypeError` instead. -/
theorem C10_timestamp_fallback (isoParse : String → Option PyDateTime)
    (now : ℚ) (stream : String) (event : List (String × JVal))
    (st : Correlator.CState)
    (hts : ∀ s, jget event "timestamp" = some (.jstr s) → isoParse s = none)
    (haware : ∀ e ∈ st.events, e.timestamp.aware = true)
    (hwin : 0 ≤ st.window) :
    ∃ r st', Correlator.registerEvent isoParse now stream event st
        = (.ok r, st') ∧
      ∃ rec, st'.events.getLast? = some rec ∧
        rec.timestamp = ⟨true, now⟩ ∧ rec.payload = event := by
  have hpt : Correlator.parseTimestampJ isoParse (jget event "timestamp") now
      = ⟨true, now⟩ := by
    cases hv : jget event "timestamp" with
    | none => rfl
    | some v =>
        cases v
        case jstr s => simp [Correlator.parseTimestampJ, hts s hv]
        all_goals rfl
  obtain ⟨rem, hprem, hlast, hmem⟩ :=
    Correlator.pruneEvents_keep_last (dtShift ⟨true, now⟩ (-st.window))
      { stream := Correlator.normaliseStreamArg stream event
        station_id := Correlator.regStationId event
        timestamp := ⟨true, now⟩
        payload := event }
      (by simp [dtLt, dtShift]; linarith) rfl st.events haware
  have hawareRem : ∀ e ∈ rem, e.timestamp.aware = true := by
    intro e he
    rcases List.mem_append.mp (hmem e he) with h | h
    · exact haware e h
    · rw [List.mem_singleton] at h
      subst h
      rfl
  obtain ⟨cs, ss, sC, sS, hev⟩ :=
    Correlator.evaluateStation_aware_ok
      { st with events := rem } (Correlator.regStationId event) hawareRem
  refine ⟨(cs, ss),
    { st with
        events := rem
        correlated := takeLast st.maxHistory (st.correlated ++ cs)
        suspicious := takeLast st.maxHistory (st.suspicious ++ ss)
        seenCorrelations := sC
        seenSuspicious := sS }, ?_, ?_⟩
  · unfold Correlator.registerEvent
    rw [hpt]
    dsimp only
    rw [hprem]
    dsimp only
    rw [hev]
  · exact ⟨_, hlast, rfl, rfl⟩

theorem C10_timestamp_fallback_witness :
    (∀ s, jget [(("station_id" : String), JVal.jstr "A")] "timestamp"
        = some (.jstr s) → (fun (_ : String) => (none : Option PyDateTime)) s = none) ∧
    (0 : ℚ) ≤ (Correlator.mkCorrelator 10 500).window ∧
    ∃ r st', Correlator.registerEvent (fun _ => none) 5 "pos"
        [("station_id", .jstr "A")] (Correlator.mkCorrelator 10 500)
        = (.ok r, st') ∧
      ∃ rec, st'.events.getLast? = some rec ∧
        rec.timestamp = ⟨true, 5⟩ ∧ rec.payload = [("station_id", .jstr "A")] :=
  ⟨fun _ h => rfl,
   by with_unfolding_all decide,
   C10_timestamp_fallback (fun _ => none) 5 "pos" [("station_id", .jstr "A")]
     (Correlator.mkCorrelator 10 500)
     (fun _ _ => rfl)
     (by intro e he; simp [Correlator.mkCorrelator] at he)
     (by with_unfolding_all decide)⟩

end Sentinel
